import Mathlib

/-!
Shallow embedding of the Traderz escrow/order backend
(`backend/app/services/wallet_service.py`, `order_service.py`,
`fee_service.py`, `user_service.py`, `superadmin_service.py`,
`jobs/scheduler.py`) and proofs about its specification claims.

Conventions of the embedding:
* money amounts are exact rationals (`Rat`); the Python source uses floats,
  and all arithmetic here is the same expressions evaluated exactly;
* timestamps are integers counted in hours (`timedelta(hours=h)` is `+ h`,
  `timedelta(days=d)` is `+ 24*d`);
* database ids (UUIDs) are modelled as `Nat`; the fresh UUID given to a new
  order is modelled by its sequential order number, which is unique;
* a service call is a function `... → Except ErrorCode (State × result)`:
  raising `AppException` is `Except.error`, and because every service commits
  only at the end of a successful call, an error leaves the state unchanged
  (transaction rollback) by construction;
* bcrypt password verification (`core/security.verify_password`) is modelled
  as string equality between the supplied and the stored password.
-/

namespace Traderz

/-- Error codes from `app/core/responses.py` (`ErrorCodes`), plus
`AUTHENTICATION_ERROR` and `INTERNAL_ERROR` which appear there too. -/
inductive ErrorCode where
  | VALIDATION_ERROR
  | AUTHENTICATION_ERROR
  | AUTHORIZATION_ERROR
  | NOT_FOUND
  | CONFLICT
  | INTERNAL_ERROR
  | INVALID_STATE_TRANSITION
  | INVALID_STATE
  | INSUFFICIENT_BALANCE
  | ORDER_ERROR
  | WALLET_ERROR
  | DUPLICATE_ENTRY
deriving DecidableEq, Repr

/-- `LedgerEntryType` from `app/models/wallet_ledger.py`. -/
inductive LedgerEntryType where
  | deposit
  | escrow_hold
  | escrow_release_pending
  | escrow_release_available
  | platform_fee
  | refund
  | withdrawal_request
  | withdrawal_paid
  | admin_credit
  | admin_debit
  | admin_freeze_hold
  | admin_freeze_release
  | giftcard_redeem
deriving DecidableEq, Repr

/-- A user's balance triple as returned by `get_user_balance`. -/
structure Balance where
  available : Rat
  pending : Rat
  frozen : Rat
deriving DecidableEq, Repr

/-- One immutable row of `wallet_ledger` (`app/models/wallet_ledger.py`),
restricted to the fields the services read or write. -/
structure LedgerEntry where
  user_id : Nat
  entry_type : LedgerEntryType
  amount_usd : Rat
  balance_available_after : Rat
  balance_pending_after : Rat
  balance_frozen_after : Rat
  order_id : Option Nat := none
  admin_id : Option Nat := none
deriving DecidableEq, Repr

/-- The ledger rows of one user, in insertion order.  The source orders by
`created_at desc` and takes the first row; entries are appended at the end of
the list, so "most recent" is the last matching element. -/
def userEntries (ledger : List LedgerEntry) (uid : Nat) : List LedgerEntry :=
  ledger.filter (fun e => e.user_id = uid)

/-- `wallet_service.get_user_balance`: the snapshot of the user's most recent
ledger row, or zeros when the user has no rows. -/
def getUserBalance (ledger : List LedgerEntry) (uid : Nat) : Balance :=
  match (userEntries ledger uid).getLast? with
  | none => ⟨0, 0, 0⟩
  | some e => ⟨e.balance_available_after, e.balance_pending_after,
              e.balance_frozen_after⟩

/-- `wallet_service._create_ledger_entry`: reads the current balance, applies
the three deltas, rejects a negative available with `INSUFFICIENT_BALANCE`
and a negative pending or frozen with `WALLET_ERROR`, otherwise appends one
immutable row carrying the new snapshot. -/
def createLedgerEntry (ledger : List LedgerEntry) (uid : Nat)
    (ty : LedgerEntryType) (amount : Rat)
    (availableDelta pendingDelta frozenDelta : Rat)
    (orderId : Option Nat := none) (adminId : Option Nat := none) :
    Except ErrorCode (List LedgerEntry × LedgerEntry) :=
  let bal := getUserBalance ledger uid
  let newAvailable := bal.available + availableDelta
  let newPending := bal.pending + pendingDelta
  let newFrozen := bal.frozen + frozenDelta
  if newAvailable < 0 then
    .error .INSUFFICIENT_BALANCE
  else if newPending < 0 then
    .error .WALLET_ERROR
  else if newFrozen < 0 then
    .error .WALLET_ERROR
  else
    let e : LedgerEntry :=
      { user_id := uid, entry_type := ty, amount_usd := amount,
        balance_available_after := newAvailable,
        balance_pending_after := newPending,
        balance_frozen_after := newFrozen,
        order_id := orderId, admin_id := adminId }
    .ok (ledger ++ [e], e)

/-- `wallet_service.hold_escrow`: available −= amount. -/
def holdEscrow (ledger : List LedgerEntry) (uid : Nat) (amount : Rat)
    (orderId : Nat) : Except ErrorCode (List LedgerEntry × LedgerEntry) :=
  createLedgerEntry ledger uid .escrow_hold (-amount) (-amount) 0 0
    (some orderId)

/-- `wallet_service.release_escrow_to_pending`: pending += amount. -/
def releaseEscrowToPending (ledger : List LedgerEntry) (uid : Nat)
    (amount : Rat) (orderId : Nat) :
    Except ErrorCode (List LedgerEntry × LedgerEntry) :=
  createLedgerEntry ledger uid .escrow_release_pending amount 0 amount 0
    (some orderId)

/-- `wallet_service.release_pending_to_available`: pending −= amount,
available += amount. -/
def releasePendingToAvailable (ledger : List LedgerEntry) (uid : Nat)
    (amount : Rat) (orderId : Nat) :
    Except ErrorCode (List LedgerEntry × LedgerEntry) :=
  createLedgerEntry ledger uid .escrow_release_available amount amount
    (-amount) 0 (some orderId)

/-- `wallet_service.refund_escrow`: available += amount. -/
def refundEscrow (ledger : List LedgerEntry) (uid : Nat) (amount : Rat)
    (orderId : Nat) : Except ErrorCode (List LedgerEntry × LedgerEntry) :=
  createLedgerEntry ledger uid .refund amount amount 0 0 (some orderId)

/-! ## Users, listings and fee rules -/

/-- `OrderStatus` from `app/models/order.py`. -/
inductive OrderStatus where
  | created
  | paid
  | delivered
  | completed
  | disputed
  | refunded
  | cancelled
deriving DecidableEq, Repr

/-- `ListingStatus` from `app/models/listing.py`. -/
inductive ListingStatus where
  | draft
  | pending
  | approved
  | rejected
  | sold
  | inactive
deriving DecidableEq, Repr

/-- The fields of `app/models/user.py` read or written by the settlement
services.  `password` stands for the stored password hash: bcrypt
verification is modelled as string equality. -/
structure UserRec where
  id : Nat
  seller_level : String := "bronze"
  total_sales_volume_usd : Rat := 0
  roles : List String := ["user"]
  password : String := ""
deriving DecidableEq, Repr

/-- The fields of `app/models/listing.py` read by `create_order`. -/
structure Listing where
  id : Nat
  seller_id : Nat
  game_id : Option Nat := none
  price_usd : Rat
  status : ListingStatus
deriving DecidableEq, Repr

/-- One row of `platform_fee_rules` (`app/models/platform_config.py`). -/
structure PlatformFeeRule where
  game_id : Option Nat := none
  platform_id : Option Nat := none
  seller_level : Option String := none
  fee_percent : Rat
deriving DecidableEq, Repr

/-- `fee_service.get_platform_fee`: most specific fee rule first —
game+platform+seller_level (only tried when both ids are non-null), then
game+seller_level (platform null), then the game default (platform and
seller_level both null), then the global default of 5%. -/
def getPlatformFee (rules : List PlatformFeeRule) (gameId platformId : Option Nat)
    (sellerLevel : String) : Rat :=
  match gameId, platformId with
  | some g, some p =>
    match rules.find? (fun r => r.game_id = some g ∧ r.platform_id = some p ∧
        r.seller_level = some sellerLevel) with
    | some r => r.fee_percent
    | none => gameFallback g
  | some g, none => gameFallback g
  | none, _ => 5
where
  /-- The game-scoped fallback tiers shared by both branches of the source. -/
  gameFallback (g : Nat) : Rat :=
    match rules.find? (fun r => r.game_id = some g ∧ r.platform_id = none ∧
        r.seller_level = some sellerLevel) with
    | some r => r.fee_percent
    | none =>
      match rules.find? (fun r => r.game_id = some g ∧ r.platform_id = none ∧
          r.seller_level = none) with
      | some r => r.fee_percent
      | none => 5

/-- `user_service.get_seller_fee_discount`: fee discount fraction keyed by
seller level, defaulting to 0 for unknown levels. -/
def getSellerFeeDiscount (sellerLevel : String) : Rat :=
  if sellerLevel = "bronze" then 0
  else if sellerLevel = "silver" then 10/100
  else if sellerLevel = "gold" then 20/100
  else if sellerLevel = "platinum" then 35/100
  else if sellerLevel = "diamond" then 50/100
  else 0

/-- The seller-level ladder of `user_service.update_seller_stats`. -/
def sellerLevelFor (volume : Rat) : String :=
  if volume ≥ 1500 then "diamond"
  else if volume ≥ 750 then "platinum"
  else if volume ≥ 350 then "gold"
  else if volume ≥ 100 then "silver"
  else "bronze"

/-- `user_service.update_seller_stats`: adds the order amount to the seller's
lifetime volume and re-derives the seller level; a missing seller is left
alone (the source's `if seller:` guard). -/
def updateSellerStats (users : List UserRec) (sellerId : Nat)
    (orderAmount : Rat) : List UserRec :=
  users.map fun u =>
    if u.id = sellerId then
      let volume := u.total_sales_volume_usd + orderAmount
      { u with total_sales_volume_usd := volume
               seller_level := sellerLevelFor volume }
    else u

/-! ## Orders and application state -/

/-- The fields of `app/models/order.py` read or written by the services.
Timestamps are hours (`Int`); the order's UUID is modelled by its unique
sequential number. -/
structure Order where
  id : Nat
  order_number : Nat
  listing_id : Nat
  buyer_id : Nat
  seller_id : Nat
  amount_usd : Rat
  platform_fee_usd : Rat
  seller_earnings_usd : Rat
  base_fee_percent : Rat
  seller_discount_percent : Rat
  effective_fee_percent : Rat
  status : OrderStatus
  paid_at : Option Int := none
  delivery_info : Option String := none
  delivered_at : Option Int := none
  completed_at : Option Int := none
  completed_by : Option String := none
  seller_pending_release_at : Option Int := none
  seller_earnings_released : Option Int := none
  disputed_at : Option Int := none
  dispute_reason : Option String := none
  dispute_resolution : Option String := none
  dispute_resolved_at : Option Int := none
  refunded_at : Option Int := none
  cancelled_at : Option Int := none
deriving DecidableEq, Repr

/-- One immutable row of `admin_actions` (`app/models/admin_action.py`),
restricted to the fields the claims touch.  The table has a unique index on
`idempotency_key`. -/
structure AdminAction where
  actor_id : Nat
  action_type : String
  target_id : Option Nat := none
  reason : Option String := none
  confirmation_method : Option String := none
  confirm_phrase_used : Option String := none
  idempotency_key : Option String := none
deriving DecidableEq, Repr

/-- The persistent state the settlement subsystem owns: the append-only
ledger, the orders and listings tables, the users it updates, the fee-rule
and config tables it reads, the append-only audit table, and the single-row
order counter (`None` until first created). -/
structure AppState where
  ledger : List LedgerEntry := []
  orders : List Order := []
  listings : List Listing := []
  users : List UserRec := []
  feeRules : List PlatformFeeRule := []
  config : List (String × Int) := []
  adminActions : List AdminAction := []
  orderCounter : Option Nat := none
deriving DecidableEq, Repr

/-- `order_service.generate_order_number`: reads the single counter row under
lock, creating it at 1000 when absent, and returns the number plus the
incremented counter. -/
def generateOrderNumber (counter : Option Nat) : Nat × Option Nat :=
  match counter with
  | none => (1000, some 1001)
  | some v => (v, some (v + 1))

/-- Replace the order with `o.id` in the orders table. -/
def setOrder (st : AppState) (o : Order) : AppState :=
  { st with orders := st.orders.map fun x => if x.id = o.id then o else x }

/-- `order_service.create_order`: requires an approved, non-self-owned
listing and `available ≥ price`; resolves the fee (the platform argument is
`None` in this call), holds escrow for the full price, creates the order in
CREATED and moves it to PAID within the same transaction, and marks the
listing SOLD.  A listing whose seller row is missing would crash the source
with an `AttributeError`, surfaced by the generic handler as
`INTERNAL_ERROR`. -/
def createOrder (st : AppState) (buyer : UserRec) (listingId : Nat)
    (now : Int) : Except ErrorCode (AppState × Order) :=
  match st.listings.find? (fun l => l.id = listingId) with
  | none => .error .NOT_FOUND
  | some listing =>
    if listing.status ≠ .approved then .error .VALIDATION_ERROR
    else if listing.seller_id = buyer.id then .error .VALIDATION_ERROR
    else
      let bal := getUserBalance st.ledger buyer.id
      if bal.available < listing.price_usd then .error .INSUFFICIENT_BALANCE
      else
        match st.users.find? (fun u => u.id = listing.seller_id) with
        | none => .error .INTERNAL_ERROR
        | some seller =>
          let baseFee := getPlatformFee st.feeRules listing.game_id none
            seller.seller_level
          let discount := getSellerFeeDiscount seller.seller_level
          let effectiveFee := baseFee * (1 - discount)
          let platformFee := listing.price_usd * (effectiveFee / 100)
          let earnings := listing.price_usd - platformFee
          let (orderNum, counter') := generateOrderNumber st.orderCounter
          let order0 : Order :=
            { id := orderNum, order_number := orderNum,
              listing_id := listing.id, buyer_id := buyer.id,
              seller_id := listing.seller_id,
              amount_usd := listing.price_usd,
              platform_fee_usd := platformFee,
              seller_earnings_usd := earnings,
              base_fee_percent := baseFee,
              seller_discount_percent := discount * 100,
              effective_fee_percent := effectiveFee,
              status := .created }
          match holdEscrow st.ledger buyer.id listing.price_usd order0.id with
          | .error e => .error e
          | .ok (ledger', _) =>
            let order := { order0 with status := .paid, paid_at := some now }
            let listings' := st.listings.map fun l =>
              if l.id = listingId then { l with status := .sold } else l
            .ok ({ st with ledger := ledger', orders := st.orders ++ [order]
                           listings := listings', orderCounter := counter' }, order)

/-- `order_service.deliver_order`: the lookup is scoped to the seller; only
from PAID; stamps `delivered_at`. -/
def deliverOrder (st : AppState) (orderId sellerId : Nat)
    (deliveryInfo : String) (now : Int) :
    Except ErrorCode (AppState × Order) :=
  match st.orders.find? (fun o => o.id = orderId ∧ o.seller_id = sellerId) with
  | none => .error .NOT_FOUND
  | some order =>
    if order.status ≠ .paid then .error .INVALID_STATE_TRANSITION
    else
      let order' := { order with status := .delivered
                                 delivery_info := some deliveryInfo
                                 delivered_at := some now }
      .ok (setOrder st order', order')

/-- `order_service.complete_order`: only the buyer may complete when
`completed_by = "buyer"`; only from DELIVERED; releases the earnings to the
seller's pending balance and fixes `seller_pending_release_at` ten days
(240 h) ahead — the 10 is a literal in the source, not a config read —
then updates the seller's stats. -/
def completeOrder (st : AppState) (orderId userId : Nat)
    (completedBy : String) (now : Int) :
    Except ErrorCode (AppState × Order) :=
  match st.orders.find? (fun o => o.id = orderId) with
  | none => .error .NOT_FOUND
  | some order =>
    if completedBy = "buyer" ∧ order.buyer_id ≠ userId then
      .error .AUTHORIZATION_ERROR
    else if order.status ≠ .delivered then .error .INVALID_STATE_TRANSITION
    else
      match releaseEscrowToPending st.ledger order.seller_id
          order.seller_earnings_usd order.id with
      | .error e => .error e
      | .ok (ledger', _) =>
        let order' := { order with status := .completed
                                   completed_at := some now
                                   completed_by := some completedBy
                                   seller_pending_release_at := some (now + 24 * 10) }
        let users' := updateSellerStats st.users order.seller_id
          order.amount_usd
        .ok ({ setOrder st order' with ledger := ledger', users := users' },
             order')

/-- `order_service.dispute_order`: the lookup is scoped to the buyer; only
from DELIVERED; when `delivered_at` is set, rejects with `VALIDATION_ERROR`
once `now` is past `delivered_at + 24` — the 24-hour window is a literal in
the source, not a config read. -/
def disputeOrder (st : AppState) (orderId buyerId : Nat) (reason : String)
    (now : Int) : Except ErrorCode (AppState × Order) :=
  match st.orders.find? (fun o => o.id = orderId ∧ o.buyer_id = buyerId) with
  | none => .error .NOT_FOUND
  | some order =>
    if order.status ≠ .delivered then .error .INVALID_STATE_TRANSITION
    else if (match order.delivered_at with
             | some d => decide (now > d + 24)
             | none => false) then .error .VALIDATION_ERROR
    else
      let order' := { order with status := .disputed
                                 dispute_reason := some reason
                                 disputed_at := some now }
      .ok (setOrder st order', order')

/-- `order_service.resolve_dispute`: only from DISPUTED; "refund" refunds
the buyer's escrow and marks REFUNDED; "complete" releases to the seller's
pending with `completed_by = "admin"` and a fixed ten-day release, updating
seller stats; any other resolution is a `VALIDATION_ERROR`. -/
def resolveDispute (st : AppState) (orderId : Nat) (resolution note : String)
    (now : Int) : Except ErrorCode (AppState × Order) :=
  match st.orders.find? (fun o => o.id = orderId) with
  | none => .error .NOT_FOUND
  | some order =>
    if order.status ≠ .disputed then .error .INVALID_STATE_TRANSITION
    else if resolution = "refund" then
      match refundEscrow st.ledger order.buyer_id order.amount_usd order.id with
      | .error e => .error e
      | .ok (ledger', _) =>
        let order' := { order with status := .refunded
                                   refunded_at := some now
                                   dispute_resolved_at := some now
                                   dispute_resolution := some note }
        .ok ({ setOrder st order' with ledger := ledger' }, order')
    else if resolution = "complete" then
      match releaseEscrowToPending st.ledger order.seller_id
          order.seller_earnings_usd order.id with
      | .error e => .error e
      | .ok (ledger', _) =>
        let order' := { order with status := .completed
                                   completed_at := some now
                                   completed_by := some "admin"
                                   seller_pending_release_at := some (now + 24 * 10)
                                   dispute_resolved_at := some now
                                   dispute_resolution := some note }
        let users' := updateSellerStats st.users order.seller_id
          order.amount_usd
        .ok ({ setOrder st order' with ledger := ledger', users := users' },
             order')
    else .error .VALIDATION_ERROR

/-- `order_service.cancel_order`: buyer or seller only; only from CREATED. -/
def cancelOrder (st : AppState) (orderId userId : Nat) (now : Int) :
    Except ErrorCode (AppState × Order) :=
  match st.orders.find? (fun o => o.id = orderId) with
  | none => .error .NOT_FOUND
  | some order =>
    if order.buyer_id ≠ userId ∧ order.seller_id ≠ userId then
      .error .AUTHORIZATION_ERROR
    else if order.status ≠ .created then .error .INVALID_STATE_TRANSITION
    else
      let order' := { order with status := .cancelled
                                 cancelled_at := some now }
      .ok (setOrder st order', order')

/-! ## Super admin service (`superadmin_service.py`) -/

/-- `LARGE_AMOUNT_THRESHOLD` from `superadmin_service.py`. -/
def LARGE_AMOUNT_THRESHOLD : Rat := 1000

/-- `SuperAdminService._require_super_admin`. -/
def requireSuperAdmin (admin : UserRec) : Except ErrorCode Unit :=
  if "super_admin" ∈ admin.roles then .ok ()
  else .error .AUTHORIZATION_ERROR

/-- `SuperAdminService._verify_password` (bcrypt check modelled as string
equality with the stored credential). -/
def verifyAdminPassword (admin : UserRec) (password : String) :
    Except ErrorCode Unit :=
  if password = admin.password then .ok ()
  else .error .AUTHENTICATION_ERROR

/-- `AuditLogger.log` plus the database's unique index on
`admin_actions.idempotency_key`: inserting a second row with an
already-used key raises an `IntegrityError` at flush, which no handler
maps to an app error, so the request surfaces as `INTERNAL_ERROR` and the
transaction rolls back. -/
def auditLog (actions : List AdminAction) (a : AdminAction) :
    Except ErrorCode (List AdminAction) :=
  match a.idempotency_key with
  | some k =>
    if actions.any (fun x => decide (x.idempotency_key = some k)) then
      .error .INTERNAL_ERROR
    else .ok (actions ++ [a])
  | none => .ok (actions ++ [a])

/-- `SuperAdminService.credit_wallet`: super-admin role only — no password
re-entry and no confirmation phrase; an explicit idempotency pre-check
rejects a reused key with `DUPLICATE_ENTRY`; builds the `admin_credit`
ledger row directly from the last snapshot and writes the audit row in the
same transaction. -/
def creditWallet (st : AppState) (admin : UserRec) (userId : Nat)
    (amount : Rat) (reason : String) (idempotencyKey : Option String) :
    Except ErrorCode (AppState × Rat) :=
  match requireSuperAdmin admin with
  | .error e => .error e
  | .ok _ =>
    let dup : Bool := match idempotencyKey with
      | some k => st.adminActions.any fun x =>
          decide (x.idempotency_key = some k)
      | none => false
    if dup then .error .DUPLICATE_ENTRY
    else match st.users.find? (fun u => u.id = userId) with
    | none => .error .NOT_FOUND
    | some _ =>
      let bal := getUserBalance st.ledger userId
      let newAvailable := bal.available + amount
      let entry : LedgerEntry :=
        { user_id := userId, entry_type := .admin_credit,
          amount_usd := amount,
          balance_available_after := newAvailable,
          balance_pending_after := bal.pending,
          balance_frozen_after := bal.frozen,
          admin_id := some admin.id }
      let act : AdminAction :=
        { actor_id := admin.id, action_type := "wallet_credit",
          target_id := some userId, reason := some reason,
          idempotency_key := idempotencyKey }
      match auditLog st.adminActions act with
      | .error e => .error e
      | .ok actions' =>
        .ok ({ st with
               ledger := st.ledger ++ [entry]
               adminActions := actions' }, newAvailable)

/-- `SuperAdminService.debit_wallet`: super-admin role, password re-entry,
and for amounts at/above the $1000 threshold a typed phrase compared
case-insensitively against "CONFIRM DEBIT"; rejects `available < amount`
with `INSUFFICIENT_BALANCE`; no idempotency pre-check — a reused key only
fails at the audit insert through the unique index. -/
def debitWallet (st : AppState) (admin : UserRec) (userId : Nat)
    (amount : Rat) (reason : String) (adminPassword : String)
    (confirmPhrase : Option String) (idempotencyKey : Option String) :
    Except ErrorCode (AppState × Rat) :=
  match requireSuperAdmin admin with
  | .error e => .error e
  | .ok _ =>
  match verifyAdminPassword admin adminPassword with
  | .error e => .error e
  | .ok _ =>
    let phraseOk : Bool := match confirmPhrase with
      | some p => p.toUpper = "CONFIRM DEBIT"
      | none => false
    if amount ≥ LARGE_AMOUNT_THRESHOLD ∧ phraseOk = false then
      .error .VALIDATION_ERROR
    else match st.users.find? (fun u => u.id = userId) with
    | none => .error .NOT_FOUND
    | some _ =>
      let bal := getUserBalance st.ledger userId
      if bal.available < amount then .error .INSUFFICIENT_BALANCE
      else
        let newAvailable := bal.available - amount
        let entry : LedgerEntry :=
          { user_id := userId, entry_type := .admin_debit,
            amount_usd := -amount,
            balance_available_after := newAvailable,
            balance_pending_after := bal.pending,
            balance_frozen_after := bal.frozen,
            admin_id := some admin.id }
        let act : AdminAction :=
          { actor_id := admin.id, action_type := "wallet_debit",
            target_id := some userId, reason := some reason,
            confirmation_method := some "password",
            confirm_phrase_used := confirmPhrase,
            idempotency_key := idempotencyKey }
        match auditLog st.adminActions act with
        | .error e => .error e
        | .ok actions' =>
          .ok ({ st with
                 ledger := st.ledger ++ [entry]
                 adminActions := actions' }, newAvailable)

/-- `SuperAdminService.freeze_funds`: super-admin role, password re-entry,
and for amounts at/above the $1000 threshold a typed phrase compared
case-insensitively against "CONFIRM FREEZE"; rejects `available < amount`
with `INSUFFICIENT_BALANCE`; moves the amount from available to frozen
with a directly-built `admin_freeze_hold` row. -/
def freezeFunds (st : AppState) (admin : UserRec) (userId : Nat)
    (amount : Rat) (reason : String) (adminPassword : String)
    (confirmPhrase : Option String) (idempotencyKey : Option String) :
    Except ErrorCode (AppState × Rat) :=
  match requireSuperAdmin admin with
  | .error e => .error e
  | .ok _ =>
  match verifyAdminPassword admin adminPassword with
  | .error e => .error e
  | .ok _ =>
    let phraseOk : Bool := match confirmPhrase with
      | some p => p.toUpper = "CONFIRM FREEZE"
      | none => false
    if amount ≥ LARGE_AMOUNT_THRESHOLD ∧ phraseOk = false then
      .error .VALIDATION_ERROR
    else match st.users.find? (fun u => u.id = userId) with
    | none => .error .NOT_FOUND
    | some _ =>
      let bal := getUserBalance st.ledger userId
      if bal.available < amount then .error .INSUFFICIENT_BALANCE
      else
        let entry : LedgerEntry :=
          { user_id := userId, entry_type := .admin_freeze_hold,
            amount_usd := -amount,
            balance_available_after := bal.available - amount,
            balance_pending_after := bal.pending,
            balance_frozen_after := bal.frozen + amount,
            admin_id := some admin.id }
        let act : AdminAction :=
          { actor_id := admin.id, action_type := "wallet_freeze",
            target_id := some userId, reason := some reason,
            confirmation_method := some "password",
            confirm_phrase_used := confirmPhrase,
            idempotency_key := idempotencyKey }
        match auditLog st.adminActions act with
        | .error e => .error e
        | .ok actions' =>
          .ok ({ st with
                 ledger := st.ledger ++ [entry]
                 adminActions := actions' }, bal.available - amount)

/-- `SuperAdminService.unfreeze_funds`: super-admin role only — unlike
`freeze_funds`, it takes no password at the service, route or schema
level and demands no confirmation phrase at any amount; rejects
`frozen < amount` with `INSUFFICIENT_BALANCE`; moves the amount from
frozen back to available with a directly-built `admin_freeze_release`
row. -/
def unfreezeFunds (st : AppState) (admin : UserRec) (userId : Nat)
    (amount : Rat) (reason : String) (idempotencyKey : Option String) :
    Except ErrorCode (AppState × Rat) :=
  match requireSuperAdmin admin with
  | .error e => .error e
  | .ok _ =>
  match st.users.find? (fun u => u.id = userId) with
  | none => .error .NOT_FOUND
  | some _ =>
    let bal := getUserBalance st.ledger userId
    if bal.frozen < amount then .error .INSUFFICIENT_BALANCE
    else
      let entry : LedgerEntry :=
        { user_id := userId, entry_type := .admin_freeze_release,
          amount_usd := amount,
          balance_available_after := bal.available + amount,
          balance_pending_after := bal.pending,
          balance_frozen_after := bal.frozen - amount,
          admin_id := some admin.id }
      let act : AdminAction :=
        { actor_id := admin.id, action_type := "wallet_unfreeze",
          target_id := some userId, reason := some reason,
          idempotency_key := idempotencyKey }
      match auditLog st.adminActions act with
      | .error e => .error e
      | .ok actions' =>
        .ok ({ st with
               ledger := st.ledger ++ [entry]
               adminActions := actions' }, bal.available + amount)

/-- `SuperAdminService.force_refund_order`: super-admin role and password;
rejects only orders already REFUNDED or CANCELLED (`INVALID_STATE`) — a
COMPLETED order can still be force-refunded; the "CONFIRM REFUND" phrase is
demanded only when `amount_usd ≥ $1000`; refunds the full amount to the
buyer's available balance with a directly-built `refund` row and marks the
order REFUNDED.  Takes no idempotency key. -/
def forceRefundOrder (st : AppState) (admin : UserRec) (orderId : Nat)
    (reason : String) (adminPassword : String)
    (confirmPhrase : Option String) (now : Int) :
    Except ErrorCode (AppState × Order) :=
  match requireSuperAdmin admin with
  | .error e => .error e
  | .ok _ =>
  match verifyAdminPassword admin adminPassword with
  | .error e => .error e
  | .ok _ =>
  match st.orders.find? (fun o => o.id = orderId) with
  | none => .error .NOT_FOUND
  | some order =>
    if order.status = .refunded ∨ order.status = .cancelled then
      .error .INVALID_STATE
    else
      let phraseOk : Bool := match confirmPhrase with
        | some p => p.toUpper = "CONFIRM REFUND"
        | none => false
      if order.amount_usd ≥ LARGE_AMOUNT_THRESHOLD ∧ phraseOk = false then
        .error .VALIDATION_ERROR
      else
        let bal := getUserBalance st.ledger order.buyer_id
        let entry : LedgerEntry :=
          { user_id := order.buyer_id, entry_type := .refund,
            amount_usd := order.amount_usd,
            balance_available_after := bal.available + order.amount_usd,
            balance_pending_after := bal.pending,
            balance_frozen_after := bal.frozen,
            order_id := some order.id, admin_id := some admin.id }
        let order' := { order with
                        status := .refunded
                        refunded_at := some now
                        dispute_resolution := some reason
                        dispute_resolved_at := some now }
        let act : AdminAction :=
          { actor_id := admin.id, action_type := "force_refund",
            target_id := some orderId, reason := some reason,
            confirmation_method := some "password",
            confirm_phrase_used := confirmPhrase }
        match auditLog st.adminActions act with
        | .error e => .error e
        | .ok actions' =>
          .ok ({ setOrder st order' with
                 ledger := st.ledger ++ [entry]
                 adminActions := actions' }, order')

/-- `SuperAdminService.force_complete_order`: super-admin role and password;
rejects orders already COMPLETED, REFUNDED or CANCELLED (`INVALID_STATE`) —
any other status, including CREATED, can be force-completed; the
"CONFIRM COMPLETE" phrase is demanded only when `amount_usd ≥ $1000`;
releases the earnings to the seller's pending balance with a
directly-built row, marks the order COMPLETED with `completed_by="admin"`
and a fixed ten-day release, and does not update seller stats.  Takes no
idempotency key. -/
def forceCompleteOrder (st : AppState) (admin : UserRec) (orderId : Nat)
    (reason : String) (adminPassword : String)
    (confirmPhrase : Option String) (now : Int) :
    Except ErrorCode (AppState × Order) :=
  match requireSuperAdmin admin with
  | .error e => .error e
  | .ok _ =>
  match verifyAdminPassword admin adminPassword with
  | .error e => .error e
  | .ok _ =>
  match st.orders.find? (fun o => o.id = orderId) with
  | none => .error .NOT_FOUND
  | some order =>
    if order.status = .completed ∨ order.status = .refunded ∨
        order.status = .cancelled then
      .error .INVALID_STATE
    else
      let phraseOk : Bool := match confirmPhrase with
        | some p => p.toUpper = "CONFIRM COMPLETE"
        | none => false
      if order.amount_usd ≥ LARGE_AMOUNT_THRESHOLD ∧ phraseOk = false then
        .error .VALIDATION_ERROR
      else
        let bal := getUserBalance st.ledger order.seller_id
        let entry : LedgerEntry :=
          { user_id := order.seller_id,
            entry_type := .escrow_release_pending,
            amount_usd := order.seller_earnings_usd,
            balance_available_after := bal.available,
            balance_pending_after := bal.pending + order.seller_earnings_usd,
            balance_frozen_after := bal.frozen,
            order_id := some order.id, admin_id := some admin.id }
        let order' := { order with
                        status := .completed
                        completed_at := some now
                        completed_by := some "admin"
                        dispute_resolution := some reason
                        dispute_resolved_at := some now
                        seller_pending_release_at := some (now + 24 * 10) }
        let act : AdminAction :=
          { actor_id := admin.id, action_type := "force_complete",
            target_id := some orderId, reason := some reason,
            confirmation_method := some "password",
            confirm_phrase_used := confirmPhrase }
        match auditLog st.adminActions act with
        | .error e => .error e
        | .ok actions' =>
          .ok ({ setOrder st order' with
                 ledger := st.ledger ++ [entry]
                 adminActions := actions' }, order')

/-! ## Settlement scheduler (`jobs/scheduler.py`) -/

/-- `scheduler.get_config_value` followed by `int(...)`: the stored value
for the key, or the default when the key is absent. -/
def getConfigInt (st : AppState) (key : String) (dflt : Int) : Int :=
  match st.config.lookup key with
  | some v => v
  | none => dflt

/-- The selection of `auto_complete_orders_job`: DELIVERED orders whose
`delivered_at` is strictly before the cutoff (a SQL NULL `delivered_at`
never compares below the cutoff). -/
def autoCompleteSelected (cutoff : Int) (o : Order) : Bool :=
  decide (o.status = .delivered) &&
    (match o.delivered_at with
     | some d => decide (d < cutoff)
     | none => false)

/-- The per-order loop of `auto_complete_orders_job`, walking the scanned
orders in sequence and threading the ledger and users tables.  A failure of
the ledger append for one order is caught and logged by the source, leaving
that order untouched and continuing with the rest. -/
def autoCompleteGo (now : Int) (protectionDays : Int) (cutoff : Int) :
    List Order → List LedgerEntry → List UserRec →
    List Order × List LedgerEntry × List UserRec
  | [], ledger, users => ([], ledger, users)
  | o :: rest, ledger, users =>
    if autoCompleteSelected cutoff o then
      match releaseEscrowToPending ledger o.seller_id o.seller_earnings_usd
          o.id with
      | .error _ =>
        let r := autoCompleteGo now protectionDays cutoff rest ledger users
        (o :: r.1, r.2.1, r.2.2)
      | .ok (ledger', _) =>
        let o' := { o with
                    status := .completed
                    completed_at := some now
                    completed_by := some "auto"
                    seller_pending_release_at :=
                      some (now + 24 * protectionDays) }
        let users' := updateSellerStats users o.seller_id o.amount_usd
        let r := autoCompleteGo now protectionDays cutoff rest ledger'
          users'
        (o' :: r.1, r.2.1, r.2.2)
    else
      let r := autoCompleteGo now protectionDays cutoff rest ledger users
      (o :: r.1, r.2.1, r.2.2)

/-- `auto_complete_orders_job`: reads `disputeWindowHours` (default 24) and
`sellerProtectionDays` (default 10) from config, selects DELIVERED orders
with `delivered_at < now − window`, and completes each with
`completed_by = "auto"`, the earnings released to the seller's pending
balance and the release date `protectionDays` days ahead.  The source
fetches the batch once and then processes each row of it; orders outside
the selection are untouched. -/
def autoCompleteOrdersJob (st : AppState) (now : Int) : AppState :=
  let disputeHours := getConfigInt st "disputeWindowHours" 24
  let protectionDays := getConfigInt st "sellerProtectionDays" 10
  let cutoff := now - disputeHours
  let (orders', ledger', users') :=
    autoCompleteGo now protectionDays cutoff st.orders st.ledger st.users
  { st with orders := orders', ledger := ledger', users := users' }

/-! ## Projections used in claim statements -/

/-- The status of the order returned by a successful service call. -/
def resultStatus (r : Except ErrorCode (AppState × Order)) :
    Option OrderStatus :=
  match r with
  | .ok (_, o) => some o.status
  | .error _ => none

/-- The order returned by a successful service call. -/
def resultOrder (r : Except ErrorCode (AppState × Order)) : Option Order :=
  match r with
  | .ok (_, o) => some o
  | .error _ => none

/-! ## Helper lemmas about the ledger -/

theorem getUserBalance_append_self (l : List LedgerEntry) (e : LedgerEntry)
    (uid : Nat) (h : e.user_id = uid) :
    getUserBalance (l ++ [e]) uid =
      ⟨e.balance_available_after, e.balance_pending_after,
       e.balance_frozen_after⟩ := by
  unfold getUserBalance userEntries
  rw [List.filter_append]
  simp only [List.filter_cons, List.filter_nil, h, decide_True, if_true]
  rw [List.getLast?_concat]

theorem getUserBalance_append_ne (l : List LedgerEntry) (e : LedgerEntry)
    (uid : Nat) (h : e.user_id ≠ uid) :
    getUserBalance (l ++ [e]) uid = getUserBalance l uid := by
  unfold getUserBalance userEntries
  rw [List.filter_append]
  simp [List.filter_cons, h]

theorem createLedgerEntry_ok (l : List LedgerEntry) (uid : Nat)
    (ty : LedgerEntryType) (amount aD pD fD : Rat)
    (oid aid : Option Nat)
    (h1 : ¬ (getUserBalance l uid).available + aD < 0)
    (h2 : ¬ (getUserBalance l uid).pending + pD < 0)
    (h3 : ¬ (getUserBalance l uid).frozen + fD < 0) :
    ∃ e, createLedgerEntry l uid ty amount aD pD fD oid aid =
        .ok (l ++ [e], e) ∧
      e.user_id = uid ∧ e.entry_type = ty ∧ e.amount_usd = amount ∧
      e.balance_available_after = (getUserBalance l uid).available + aD ∧
      e.balance_pending_after = (getUserBalance l uid).pending + pD ∧
      e.balance_frozen_after = (getUserBalance l uid).frozen + fD ∧
      e.order_id = oid ∧ e.admin_id = aid := by
  unfold createLedgerEntry
  rw [if_neg h1, if_neg h2, if_neg h3]
  exact ⟨_, rfl, rfl, rfl, rfl, rfl, rfl, rfl, rfl, rfl⟩

theorem createLedgerEntry_insufficient (l : List LedgerEntry) (uid : Nat)
    (ty : LedgerEntryType) (amount aD pD fD : Rat) (oid aid : Option Nat)
    (h : (getUserBalance l uid).available + aD < 0) :
    createLedgerEntry l uid ty amount aD pD fD oid aid =
      .error .INSUFFICIENT_BALANCE := by
  unfold createLedgerEntry
  rw [if_pos h]

theorem createLedgerEntry_wallet_pending (l : List LedgerEntry) (uid : Nat)
    (ty : LedgerEntryType) (amount aD pD fD : Rat) (oid aid : Option Nat)
    (h1 : ¬ (getUserBalance l uid).available + aD < 0)
    (h2 : (getUserBalance l uid).pending + pD < 0) :
    createLedgerEntry l uid ty amount aD pD fD oid aid =
      .error .WALLET_ERROR := by
  unfold createLedgerEntry
  rw [if_neg h1, if_pos h2]

theorem createLedgerEntry_wallet_frozen (l : List LedgerEntry) (uid : Nat)
    (ty : LedgerEntryType) (amount aD pD fD : Rat) (oid aid : Option Nat)
    (h1 : ¬ (getUserBalance l uid).available + aD < 0)
    (h2 : ¬ (getUserBalance l uid).pending + pD < 0)
    (h3 : (getUserBalance l uid).frozen + fD < 0) :
    createLedgerEntry l uid ty amount aD pD fD oid aid =
      .error .WALLET_ERROR := by
  unfold createLedgerEntry
  rw [if_neg h1, if_neg h2, if_pos h3]

/-! ## C9 — escrow hold/refund round trip -/

/-- C9: for every buyer balance and amount, `hold_escrow(buyer, amt, order)`
followed by `refund_escrow(buyer, amt, order)` both succeed (given a valid
starting balance covering the amount) and restore the buyer's available
balance to exactly its pre-hold value, leaving pending and frozen
unchanged. -/
theorem C9_hold_refund_roundtrip (ledger : List LedgerEntry)
    (uid oid : Nat) (amt : Rat)
    (hamt : 0 ≤ amt)
    (hav : amt ≤ (getUserBalance ledger uid).available)
    (hp : 0 ≤ (getUserBalance ledger uid).pending)
    (hf : 0 ≤ (getUserBalance ledger uid).frozen) :
    ∃ l1 e1 l2 e2,
      holdEscrow ledger uid amt oid = .ok (l1, e1) ∧
      refundEscrow l1 uid amt oid = .ok (l2, e2) ∧
      getUserBalance l2 uid = getUserBalance ledger uid := by
  obtain ⟨e1, he1, he1u, -, -, he1a, he1p, he1f, -, -⟩ :=
    createLedgerEntry_ok ledger uid .escrow_hold (-amt) (-amt) 0 0
      (some oid) none (by push_neg; linarith) (by push_neg; linarith)
      (by push_neg; linarith)
  have hbal1 : getUserBalance (ledger ++ [e1]) uid =
      ⟨(getUserBalance ledger uid).available + -amt,
       (getUserBalance ledger uid).pending + 0,
       (getUserBalance ledger uid).frozen + 0⟩ := by
    rw [getUserBalance_append_self ledger e1 uid he1u, he1a, he1p, he1f]
  obtain ⟨e2, he2, he2u, -, -, he2a, he2p, he2f, -, -⟩ :=
    createLedgerEntry_ok (ledger ++ [e1]) uid .refund amt amt 0 0
      (some oid) none
      (by rw [hbal1]; push_neg; dsimp only; linarith)
      (by rw [hbal1]; push_neg; dsimp only; linarith)
      (by rw [hbal1]; push_neg; dsimp only; linarith)
  refine ⟨ledger ++ [e1], e1, (ledger ++ [e1]) ++ [e2], e2, he1, he2, ?_⟩
  rw [getUserBalance_append_self (ledger ++ [e1]) e2 uid he2u,
    he2a, he2p, he2f, hbal1]
  dsimp only
  show _ = Balance.mk (getUserBalance ledger uid).available
    (getUserBalance ledger uid).pending (getUserBalance ledger uid).frozen
  simp only [Balance.mk.injEq]
  refine ⟨by ring_nf, by ring_nf, by ring_nf⟩

/-- Witness for C9 at a concrete input: a buyer with a $100 available
balance, holding and refunding $25. -/
theorem C9_hold_refund_roundtrip_witness :
    ∃ l1 e1 l2 e2,
      holdEscrow [⟨1, .deposit, 100, 100, 0, 0, none, none⟩] 1 25 7 =
        .ok (l1, e1) ∧
      refundEscrow l1 1 25 7 = .ok (l2, e2) ∧
      getUserBalance l2 1 =
        getUserBalance [⟨1, .deposit, 100, 100, 0, 0, none, none⟩] 1 :=
  C9_hold_refund_roundtrip [⟨1, .deposit, 100, 100, 0, 0, none, none⟩] 1 7 25
    (by decide) (by decide) (by decide) (by decide)

/-! ## C2 — ledger append guards and insufficient-balance order creation -/

/-- C2: a ledger append whose resulting available balance would be negative
fails with `INSUFFICIENT_BALANCE`; one whose resulting pending or frozen
balance would be negative fails with `WALLET_ERROR`; otherwise exactly one
row is appended.  An error is a raised `AppException`, so the transaction
rolls back and no row persists (`Except.error` carries no state).  In
particular `create_order` on an approved, non-self listing whose price
exceeds the buyer's available balance fails with `INSUFFICIENT_BALANCE`
before any order row or ledger row is built. -/
theorem C2_ledger_guards_and_create_order :
    (∀ (l : List LedgerEntry) (uid : Nat) (ty : LedgerEntryType)
       (amount aD pD fD : Rat) (oid aid : Option Nat),
      ((getUserBalance l uid).available + aD < 0 →
        createLedgerEntry l uid ty amount aD pD fD oid aid =
          .error .INSUFFICIENT_BALANCE) ∧
      (¬ (getUserBalance l uid).available + aD < 0 →
        ((getUserBalance l uid).pending + pD < 0 ∨
          (¬ (getUserBalance l uid).pending + pD < 0 ∧
            (getUserBalance l uid).frozen + fD < 0)) →
        createLedgerEntry l uid ty amount aD pD fD oid aid =
          .error .WALLET_ERROR) ∧
      (¬ (getUserBalance l uid).available + aD < 0 →
        ¬ (getUserBalance l uid).pending + pD < 0 →
        ¬ (getUserBalance l uid).frozen + fD < 0 →
        ∃ e, createLedgerEntry l uid ty amount aD pD fD oid aid =
          .ok (l ++ [e], e))) ∧
    (∀ (st : AppState) (buyer : UserRec) (lid : Nat) (now : Int)
       (listing : Listing),
      st.listings.find? (fun l => l.id = lid) = some listing →
      listing.status = .approved →
      listing.seller_id ≠ buyer.id →
      (getUserBalance st.ledger buyer.id).available < listing.price_usd →
      createOrder st buyer lid now = .error .INSUFFICIENT_BALANCE) := by
  constructor
  · intro l uid ty amount aD pD fD oid aid
    refine ⟨fun h => createLedgerEntry_insufficient _ _ _ _ _ _ _ _ _ h,
      fun h1 h2 => ?_, fun h1 h2 h3 => ?_⟩
    · rcases h2 with h2 | ⟨h2, h3⟩
      · exact createLedgerEntry_wallet_pending _ _ _ _ _ _ _ _ _ h1 h2
      · exact createLedgerEntry_wallet_frozen _ _ _ _ _ _ _ _ _ h1 h2 h3
    · obtain ⟨e, he, -⟩ :=
        createLedgerEntry_ok l uid ty amount aD pD fD oid aid h1 h2 h3
      exact ⟨e, he⟩
  · intro st buyer lid now listing hfind happr hself hbal
    unfold createOrder
    rw [hfind]
    simp only [happr]
    rw [if_neg (by simp), if_neg hself, if_pos hbal]

/-- Witness for C2 at concrete inputs: an escrow hold against an empty
ledger, and a $25 purchase by a buyer with no funds. -/
theorem C2_witness :
    createLedgerEntry [] 1 .escrow_hold (-25) (-25) 0 0 (some 5) none =
      .error .INSUFFICIENT_BALANCE ∧
    createOrder { listings := [⟨50, 2, none, 25, .approved⟩] }
        { id := 1 } 50 0 = .error .INSUFFICIENT_BALANCE :=
  ⟨(C2_ledger_guards_and_create_order.1 [] 1 .escrow_hold (-25) (-25) 0 0
      (some 5) none).1 (by norm_num [getUserBalance, userEntries]),
   C2_ledger_guards_and_create_order.2 { listings := [⟨50, 2, none, 25, .approved⟩] }
      { id := 1 } 50 0 ⟨50, 2, none, 25, .approved⟩ (by decide) (by decide)
      (by decide) (by decide)⟩

/-! ## C10 — a listing can be bought at most once -/

theorem find?_map_comm {α : Type} (l : List α) (g : α → α) (p : α → Bool)
    (h : ∀ x, p (g x) = p x) : (l.map g).find? p = (l.find? p).map g := by
  induction l with
  | nil => rfl
  | cons x xs ih =>
    by_cases hp : p x = true
    · rw [List.map_cons, List.find?_cons_of_pos _ (by rw [h x]; exact hp),
        List.find?_cons_of_pos _ hp, Option.map_some']
    · rw [List.map_cons,
        List.find?_cons_of_neg _ (by rw [h x]; simpa using hp),
        List.find?_cons_of_neg _ (by simpa using hp), ih]

/-- C10: a successful `create_order` marks the purchased listing SOLD in the
same transaction, and since `create_order` demands an APPROVED listing, any
later `create_order` against the same listing fails with `VALIDATION_ERROR`
(and, the error rolling the transaction back, creates no order, ledger row
or listing change). -/
theorem C10_listing_sold_once (st : AppState) (buyer : UserRec) (lid : Nat)
    (now : Int) (st' : AppState) (o : Order)
    (h : createOrder st buyer lid now = .ok (st', o)) :
    (∀ l' ∈ st'.listings, l'.id = lid → l'.status = .sold) ∧
    (∀ (buyer2 : UserRec) (now2 : Int),
      createOrder st' buyer2 lid now2 = .error .VALIDATION_ERROR) := by
  have hgid : ∀ x : Listing,
      (decide ((if x.id = lid then { x with status := .sold } else x).id = lid))
        = decide (x.id = lid) := by
    intro x
    by_cases hx : x.id = lid <;> simp [hx]
  simp only [createOrder] at h
  split at h
  · exact Except.noConfusion h
  rename_i listing hfind
  split at h
  · exact Except.noConfusion h
  rename_i happr
  split at h
  · exact Except.noConfusion h
  rename_i hself
  split at h
  · exact Except.noConfusion h
  rename_i hbal
  split at h
  · exact Except.noConfusion h
  rename_i seller hseller
  split at h
  · exact Except.noConfusion h
  rename_i ledger' esnd hhold
  simp only [Except.ok.injEq, Prod.mk.injEq] at h
  obtain ⟨hst, -⟩ := h
  subst hst
  have hlid : listing.id = lid := by
    have := List.find?_some hfind
    exact of_decide_eq_true this
  constructor
  · intro l' hl' hid
    simp only at hl'
    rcases List.mem_map.1 hl' with ⟨x, hx, rfl⟩
    by_cases hxid : x.id = lid
    · simp [hxid]
    · simp only [if_neg hxid] at hid ⊢
      exact absurd hid hxid
  · intro buyer2 now2
    unfold createOrder
    dsimp only
    rw [find?_map_comm _ _ _ hgid, hfind, Option.map_some']
    rw [if_pos]
    · simp [hlid]
    · exact hlid

/-- Witness for C10 at a concrete input: a funded buyer purchases an
approved $25 listing; the listing ends SOLD and a second purchase fails. -/
theorem C10_listing_sold_once_witness :
    ∃ st' o, createOrder
        { ledger := [⟨1, .deposit, 100, 100, 0, 0, none, none⟩]
          listings := [⟨50, 2, none, 25, .approved⟩]
          users := [{ id := 2 }] } { id := 1 } 50 0 = .ok (st', o) ∧
      (∀ l' ∈ st'.listings, l'.id = 50 → l'.status = .sold) ∧
      (∀ (buyer2 : UserRec) (now2 : Int),
        createOrder st' buyer2 50 now2 = .error .VALIDATION_ERROR) := by
  cases hrun : createOrder
      { ledger := [⟨1, .deposit, 100, 100, 0, 0, none, none⟩]
        listings := [⟨50, 2, none, 25, .approved⟩]
        users := [{ id := 2 }] } { id := 1 } 50 0 with
  | error e =>
    exfalso
    revert hrun
    norm_num [createOrder, getUserBalance, userEntries, getPlatformFee,
      getSellerFeeDiscount, generateOrderNumber, holdEscrow,
      createLedgerEntry, List.find?]
    exact fun hc => Except.noConfusion hc
  | ok p =>
    obtain ⟨st', o⟩ := p
    exact ⟨st', o, rfl,
      (C10_listing_sold_once _ _ _ _ _ _ hrun).1,
      (C10_listing_sold_once _ _ _ _ _ _ hrun).2⟩

/-! ## C5 — dispute window -/

/-- A DELIVERED order, delivered at hour 0, in a state whose config sets
`disputeWindowHours` to 48. -/
def c5Order : Order :=
  { id := 10, order_number := 1000, listing_id := 50, buyer_id := 1,
    seller_id := 2, amount_usd := 25, platform_fee_usd := 0,
    seller_earnings_usd := 25, base_fee_percent := 5,
    seller_discount_percent := 0, effective_fee_percent := 5,
    status := .delivered, delivered_at := some 0 }

/-- State for the C5 counterexample. -/
def c5State : AppState :=
  { orders := [c5Order], config := [("disputeWindowHours", 48)] }

/-- C5 counterexample: with `disputeWindowHours` configured to 48, a buyer
disputing a DELIVERED order 30 h after delivery — inside the configured
window — is still rejected with `VALIDATION_ERROR`, because `dispute_order`
hard-codes a 24-hour window and never reads the config. -/
theorem C5_counterexample :
    getConfigInt c5State "disputeWindowHours" 24 = 48 ∧
    c5State.orders = [c5Order] ∧
    c5Order.status = .delivered ∧ c5Order.delivered_at = some 0 ∧
    ((30 : Int) ≤ 0 + 48) ∧
    disputeOrder c5State 10 1 "item missing" 30 =
      .error .VALIDATION_ERROR := by
  refine ⟨by decide, rfl, by decide, by decide, by decide, ?_⟩
  norm_num [disputeOrder, c5State, c5Order, List.find?]

/-- C5 (amended): `dispute_order` succeeds only from DELIVERED and, when
`delivered_at` is set, only while `now ≤ delivered_at + 24` — the window is
a fixed 24 hours, not the configured `dispute_window_hours`; past the
window it rejects with `VALIDATION_ERROR`, and any other status is
rejected with `INVALID_STATE_TRANSITION`. -/
theorem C5_dispute_window_fixed_24h (st : AppState) (oid bid : Nat)
    (reason : String) (now : Int) (o : Order)
    (hfind : st.orders.find? (fun x => x.id = oid ∧ x.buyer_id = bid) =
      some o) :
    (o.status ≠ .delivered →
      disputeOrder st oid bid reason now =
        .error .INVALID_STATE_TRANSITION) ∧
    (∀ d, o.status = .delivered → o.delivered_at = some d → now > d + 24 →
      disputeOrder st oid bid reason now = .error .VALIDATION_ERROR) ∧
    (∀ d, o.status = .delivered → o.delivered_at = some d → now ≤ d + 24 →
      ∃ st' o', disputeOrder st oid bid reason now = .ok (st', o') ∧
        o'.status = .disputed) ∧
    (o.status = .delivered → o.delivered_at = none →
      ∃ st' o', disputeOrder st oid bid reason now = .ok (st', o') ∧
        o'.status = .disputed) := by
  refine ⟨fun hs => ?_, fun d hs hd hlate => ?_, fun d hs hd hok => ?_,
    fun hs hd => ?_⟩
  · simp only [disputeOrder, hfind]
    rw [if_pos hs]
  · simp only [disputeOrder, hfind]
    rw [if_neg (by simp [hs]), hd]
    simp [hlate]
  · simp only [disputeOrder, hfind]
    rw [if_neg (by simp [hs]), hd]
    have hng : ¬ now > d + 24 := by omega
    simp only [hng, decide_False]
    exact ⟨_, _, rfl, rfl⟩
  · simp only [disputeOrder, hfind]
    rw [if_neg (by simp [hs]), hd]
    exact ⟨_, _, rfl, rfl⟩

/-- Witness for C5 (amended) at concrete inputs: the same order is rejected
25 h after delivery and accepted 20 h after delivery. -/
theorem C5_dispute_window_fixed_24h_witness :
    disputeOrder c5State 10 1 "r" 25 = .error .VALIDATION_ERROR ∧
    ∃ st' o', disputeOrder c5State 10 1 "r" 20 = .ok (st', o') ∧
      o'.status = .disputed :=
  ⟨(C5_dispute_window_fixed_24h c5State 10 1 "r" 25 c5Order
      (by decide)).2.1 0 (by decide) (by decide) (by decide),
   (C5_dispute_window_fixed_24h c5State 10 1 "r" 20 c5Order
      (by decide)).2.2.1 0 (by decide) (by decide) (by decide)⟩

/-! ## C6 — completion effects -/

/-- A DELIVERED order in a state whose config sets `sellerProtectionDays`
to 20. -/
def c6Order : Order :=
  { id := 10, order_number := 1000, listing_id := 50, buyer_id := 1,
    seller_id := 2, amount_usd := 25, platform_fee_usd := 5,
    seller_earnings_usd := 20, base_fee_percent := 5,
    seller_discount_percent := 0, effective_fee_percent := 5,
    status := .delivered, delivered_at := some 0 }

/-- State for the C6 counterexample. -/
def c6State : AppState :=
  { orders := [c6Order], users := [{ id := 2 }],
    config := [("sellerProtectionDays", 20)] }

/-- C6 counterexample: with `sellerProtectionDays` configured to 20,
`complete_order` still sets `seller_pending_release_at` ten days out
(240 h after `now`), not twenty, because the 10 is a literal in
`complete_order`; so the claim's "configured value defaulting to 10" is
false of buyer completion. -/
theorem C6_counterexample :
    getConfigInt c6State "sellerProtectionDays" 10 = 20 ∧
    (resultOrder (completeOrder c6State 10 1 "buyer" 100)).map
        (fun o => o.seller_pending_release_at) =
      some (some (100 + 24 * 10)) ∧
    (100 + 24 * 10 : Int) ≠ 100 + 24 * 20 := by
  refine ⟨by decide, ?_, by decide⟩
  norm_num [completeOrder, c6State, c6Order, List.find?,
    releaseEscrowToPending, createLedgerEntry, getUserBalance, userEntries,
    updateSellerStats, resultOrder, setOrder, sellerLevelFor]

/-- C6 (amended): completing a DELIVERED order releases
`seller_earnings_usd` to the seller's pending (not available) balance, sets
`seller_pending_release_at = now + 10 days` with the ten days hard-coded
(the `sellerProtectionDays` config is read only by the scheduler), adds
`amount_usd` to the seller's lifetime volume and re-derives the tier, whose
ladder is bronze <100, silver ≥100, gold ≥350, platinum ≥750, diamond
≥1500 cumulative USD. -/
theorem C6_complete_order_effects (st : AppState) (oid uid : Nat)
    (completedBy : String) (now : Int) (o : Order)
    (hfind : st.orders.find? (fun x => x.id = oid) = some o)
    (hauth : ¬ (completedBy = "buyer" ∧ o.buyer_id ≠ uid))
    (hs : o.status = .delivered)
    (hav : 0 ≤ (getUserBalance st.ledger o.seller_id).available)
    (hpe : 0 ≤ (getUserBalance st.ledger o.seller_id).pending +
      o.seller_earnings_usd)
    (hfr : 0 ≤ (getUserBalance st.ledger o.seller_id).frozen) :
    (∃ st' o', completeOrder st oid uid completedBy now = .ok (st', o') ∧
      o'.status = .completed ∧
      o'.completed_by = some completedBy ∧
      o'.seller_pending_release_at = some (now + 24 * 10) ∧
      getUserBalance st'.ledger o.seller_id =
        ⟨(getUserBalance st.ledger o.seller_id).available,
         (getUserBalance st.ledger o.seller_id).pending +
           o.seller_earnings_usd,
         (getUserBalance st.ledger o.seller_id).frozen⟩ ∧
      (∀ u, st.users.find? (fun x => x.id = o.seller_id) = some u →
        st'.users.find? (fun x => x.id = o.seller_id) = some
          { u with
            total_sales_volume_usd :=
              u.total_sales_volume_usd + o.amount_usd
            seller_level :=
              sellerLevelFor (u.total_sales_volume_usd + o.amount_usd) })) ∧
    (∀ v : Rat,
      (v < 100 → sellerLevelFor v = "bronze") ∧
      (100 ≤ v → v < 350 → sellerLevelFor v = "silver") ∧
      (350 ≤ v → v < 750 → sellerLevelFor v = "gold") ∧
      (750 ≤ v → v < 1500 → sellerLevelFor v = "platinum") ∧
      (1500 ≤ v → sellerLevelFor v = "diamond")) := by
  constructor
  · obtain ⟨e, he, heu, -, -, hea, hep, hef, -, -⟩ :=
      createLedgerEntry_ok st.ledger o.seller_id .escrow_release_pending
        o.seller_earnings_usd 0 o.seller_earnings_usd 0 (some o.id) none
        (by push_neg; linarith) (by push_neg; linarith)
        (by push_neg; linarith)
    refine ⟨{ setOrder st { o with
                status := .completed
                completed_at := some now
                completed_by := some completedBy
                seller_pending_release_at := some (now + 24 * 10) } with
              ledger := st.ledger ++ [e]
              users := updateSellerStats st.users o.seller_id
                o.amount_usd },
            { o with
              status := .completed
              completed_at := some now
              completed_by := some completedBy
              seller_pending_release_at := some (now + 24 * 10) },
            ?_, rfl, rfl, rfl, ?_, ?_⟩
    · simp only [completeOrder, hfind]
      rw [if_neg hauth, if_neg (by simp [hs]), releaseEscrowToPending, he]
    · dsimp only
      rw [getUserBalance_append_self st.ledger e o.seller_id heu,
        hea, hep, hef]
      show _ = Balance.mk (getUserBalance st.ledger o.seller_id).available
        ((getUserBalance st.ledger o.seller_id).pending +
          o.seller_earnings_usd)
        (getUserBalance st.ledger o.seller_id).frozen
      simp only [Balance.mk.injEq]
      refine ⟨by ring_nf, by ring_nf, by ring_nf⟩
    · intro u hu
      dsimp only
      have hgid : ∀ x : UserRec,
          (decide ((if x.id = o.seller_id then
              { x with
                total_sales_volume_usd :=
                  x.total_sales_volume_usd + o.amount_usd
                seller_level :=
                  sellerLevelFor (x.total_sales_volume_usd + o.amount_usd) }
            else x).id = o.seller_id)) = decide (x.id = o.seller_id) := by
        intro x
        by_cases hx : x.id = o.seller_id <;> simp [hx]
      rw [updateSellerStats, find?_map_comm _ _ _ hgid, hu,
        Option.map_some']
      have huid' := List.find?_some hu
      have huid : u.id = o.seller_id := of_decide_eq_true huid'
      rw [if_pos huid]
  · intro v
    refine ⟨fun h1 => ?_, fun h1 h2 => ?_, fun h1 h2 => ?_,
      fun h1 h2 => ?_, fun h1 => ?_⟩ <;> unfold sellerLevelFor
    · rw [if_neg (by linarith), if_neg (by linarith), if_neg (by linarith),
        if_neg (by linarith)]
    · rw [if_neg (by linarith), if_neg (by linarith), if_neg (by linarith),
        if_pos (by linarith)]
    · rw [if_neg (by linarith), if_neg (by linarith), if_pos (by linarith)]
    · rw [if_neg (by linarith), if_pos (by linarith)]
    · rw [if_pos (by linarith)]

/-- Witness for C6 (amended) at a concrete input: the buyer completes the
delivered order of `c6State`. -/
theorem C6_complete_order_effects_witness :
    ∃ st' o', completeOrder c6State 10 1 "buyer" 100 = .ok (st', o') ∧
      o'.status = .completed ∧
      o'.seller_pending_release_at = some (100 + 24 * 10) := by
  obtain ⟨st', o', h1, h2, -, h4, -, -⟩ :=
    (C6_complete_order_effects c6State 10 1 "buyer" 100 c6Order
      (by decide) (by decide) (by decide)
      (by norm_num [getUserBalance, userEntries, c6State, c6Order])
      (by norm_num [getUserBalance, userEntries, c6State, c6Order])
      (by norm_num [getUserBalance, userEntries, c6State, c6Order])).1
  exact ⟨st', o', h1, h2, h4⟩

/-! ## C1 — transition graph, including the admin overrides -/

/-- A super admin with stored password "pw". -/
def c1Admin : UserRec :=
  { id := 99, roles := ["super_admin"], password := "pw" }

/-- A $50 order still in CREATED. -/
def c1OrderCreated : Order :=
  { id := 11, order_number := 1001, listing_id := 51, buyer_id := 1,
    seller_id := 2, amount_usd := 50, platform_fee_usd := 5,
    seller_earnings_usd := 45, base_fee_percent := 10,
    seller_discount_percent := 0, effective_fee_percent := 10,
    status := .created }

/-- A $50 order already COMPLETED. -/
def c1OrderCompleted : Order :=
  { id := 12, order_number := 1002, listing_id := 52, buyer_id := 1,
    seller_id := 2, amount_usd := 50, platform_fee_usd := 5,
    seller_earnings_usd := 45, base_fee_percent := 10,
    seller_discount_percent := 0, effective_fee_percent := 10,
    status := .completed, completed_at := some 0,
    completed_by := some "buyer" }

/-- State for the C1 counterexample. -/
def c1State : AppState :=
  { orders := [c1OrderCreated, c1OrderCompleted] }

/-- C1 counterexample: `force_complete_order` moves an order directly from
CREATED to COMPLETED, and `force_refund_order` moves an order out of the
terminal COMPLETED state into REFUNDED — both succeed with the admin's
password alone (no phrase below $1000). -/
theorem C1_counterexample :
    c1State.orders.map (fun o => (o.id, o.status)) =
      [(11, .created), (12, .completed)] ∧
    resultStatus (forceCompleteOrder c1State c1Admin 11 "r" "pw" none 0) =
      some .completed ∧
    resultStatus (forceRefundOrder c1State c1Admin 12 "r" "pw" none 0) =
      some .refunded := by
  refine ⟨by decide, ?_, ?_⟩ <;>
    · norm_num [forceCompleteOrder, forceRefundOrder, requireSuperAdmin,
        verifyAdminPassword, auditLog, getUserBalance, userEntries,
        LARGE_AMOUNT_THRESHOLD, resultStatus, setOrder, c1State, c1Admin,
        c1OrderCreated, c1OrderCompleted, List.find?]
      decide

/-- C1 (amended): the ordinary operations respect the documented graph —
create yields PAID, deliver only from PAID, complete only from DELIVERED,
dispute only from DELIVERED, resolve only from DISPUTED, cancel only from
CREATED — so none of them moves CREATED directly to COMPLETED or leaves a
terminal state; but `force_complete_order` rejects only the three terminal
states (so it may complete an order straight from CREATED), and
`force_refund_order` rejects only REFUNDED and CANCELLED (so it may refund
a COMPLETED order). -/
theorem C1_transition_guards :
    (∀ st buyer lid now st' o',
      createOrder st buyer lid now = .ok (st', o') → o'.status = .paid) ∧
    (∀ st oid sid info now st' o',
      deliverOrder st oid sid info now = .ok (st', o') →
      ∃ o, o ∈ st.orders ∧ o.status = .paid ∧ o'.status = .delivered) ∧
    (∀ st oid uid cb now st' o',
      completeOrder st oid uid cb now = .ok (st', o') →
      ∃ o, o ∈ st.orders ∧ o.status = .delivered ∧
        o'.status = .completed) ∧
    (∀ st oid bid reason now st' o',
      disputeOrder st oid bid reason now = .ok (st', o') →
      ∃ o, o ∈ st.orders ∧ o.status = .delivered ∧
        o'.status = .disputed) ∧
    (∀ st oid res note now st' o',
      resolveDispute st oid res note now = .ok (st', o') →
      ∃ o, o ∈ st.orders ∧ o.status = .disputed ∧
        (o'.status = .refunded ∨ o'.status = .completed)) ∧
    (∀ st oid uid now st' o',
      cancelOrder st oid uid now = .ok (st', o') →
      ∃ o, o ∈ st.orders ∧ o.status = .created ∧
        o'.status = .cancelled) ∧
    (∀ st admin oid reason pw phrase now st' o',
      forceRefundOrder st admin oid reason pw phrase now = .ok (st', o') →
      ∃ o, o ∈ st.orders ∧ o.status ≠ .refunded ∧ o.status ≠ .cancelled ∧
        o'.status = .refunded) ∧
    (∀ st admin oid reason pw phrase now st' o',
      forceCompleteOrder st admin oid reason pw phrase now =
        .ok (st', o') →
      ∃ o, o ∈ st.orders ∧ o.status ≠ .completed ∧ o.status ≠ .refunded ∧
        o.status ≠ .cancelled ∧ o'.status = .completed) := by
  refine ⟨?_, ?_, ?_, ?_, ?_, ?_, ?_, ?_⟩
  · intro st buyer lid now st' o' h
    simp only [createOrder] at h
    split at h
    · exact Except.noConfusion h
    split at h
    · exact Except.noConfusion h
    split at h
    · exact Except.noConfusion h
    split at h
    · exact Except.noConfusion h
    split at h
    · exact Except.noConfusion h
    split at h
    · exact Except.noConfusion h
    simp only [Except.ok.injEq, Prod.mk.injEq] at h
    obtain ⟨-, ho'⟩ := h
    rw [← ho']
  · intro st oid sid info now st' o' h
    simp only [deliverOrder] at h
    split at h
    · exact Except.noConfusion h
    rename_i o hfind
    split at h
    · exact Except.noConfusion h
    rename_i hs
    simp only [Except.ok.injEq, Prod.mk.injEq] at h
    obtain ⟨-, ho'⟩ := h
    exact ⟨o, List.mem_of_find?_eq_some hfind, of_not_not hs,
      by rw [← ho']⟩
  · intro st oid uid cb now st' o' h
    simp only [completeOrder] at h
    split at h
    · exact Except.noConfusion h
    rename_i o hfind
    split at h
    · exact Except.noConfusion h
    split at h
    · exact Except.noConfusion h
    rename_i hauth hs
    split at h
    · exact Except.noConfusion h
    simp only [Except.ok.injEq, Prod.mk.injEq] at h
    obtain ⟨-, ho'⟩ := h
    exact ⟨o, List.mem_of_find?_eq_some hfind, of_not_not hs,
      by rw [← ho']⟩
  · intro st oid bid reason now st' o' h
    simp only [disputeOrder] at h
    split at h
    · exact Except.noConfusion h
    rename_i o hfind
    split at h
    · exact Except.noConfusion h
    rename_i hs
    split at h
    · exact Except.noConfusion h
    simp only [Except.ok.injEq, Prod.mk.injEq] at h
    obtain ⟨-, ho'⟩ := h
    exact ⟨o, List.mem_of_find?_eq_some hfind, of_not_not hs,
      by rw [← ho']⟩
  · intro st oid res note now st' o' h
    simp only [resolveDispute] at h
    split at h
    · exact Except.noConfusion h
    rename_i o hfind
    split at h
    · exact Except.noConfusion h
    rename_i hs
    split at h
    · rename_i hres
      split at h
      · exact Except.noConfusion h
      simp only [Except.ok.injEq, Prod.mk.injEq] at h
      obtain ⟨-, ho'⟩ := h
      exact ⟨o, List.mem_of_find?_eq_some hfind, of_not_not hs,
        Or.inl (by rw [← ho'])⟩
    · split at h
      · rename_i hres2
        split at h
        · exact Except.noConfusion h
        simp only [Except.ok.injEq, Prod.mk.injEq] at h
        obtain ⟨-, ho'⟩ := h
        exact ⟨o, List.mem_of_find?_eq_some hfind, of_not_not hs,
          Or.inr (by rw [← ho'])⟩
      · exact Except.noConfusion h
  · intro st oid uid now st' o' h
    simp only [cancelOrder] at h
    split at h
    · exact Except.noConfusion h
    rename_i o hfind
    split at h
    · exact Except.noConfusion h
    split at h
    · exact Except.noConfusion h
    rename_i hauth hs
    simp only [Except.ok.injEq, Prod.mk.injEq] at h
    obtain ⟨-, ho'⟩ := h
    exact ⟨o, List.mem_of_find?_eq_some hfind, of_not_not hs,
      by rw [← ho']⟩
  · intro st admin oid reason pw phrase now st' o' h
    simp only [forceRefundOrder] at h
    split at h
    · exact Except.noConfusion h
    split at h
    · exact Except.noConfusion h
    split at h
    · exact Except.noConfusion h
    rename_i o hfind
    split at h
    · exact Except.noConfusion h
    rename_i hterm
    split at h
    · exact Except.noConfusion h
    split at h
    · exact Except.noConfusion h
    simp only [Except.ok.injEq, Prod.mk.injEq] at h
    obtain ⟨-, ho'⟩ := h
    push_neg at hterm
    exact ⟨o, List.mem_of_find?_eq_some hfind, hterm.1, hterm.2,
      by rw [← ho']⟩
  · intro st admin oid reason pw phrase now st' o' h
    simp only [forceCompleteOrder] at h
    split at h
    · exact Except.noConfusion h
    split at h
    · exact Except.noConfusion h
    split at h
    · exact Except.noConfusion h
    rename_i o hfind
    split at h
    · exact Except.noConfusion h
    rename_i hterm
    split at h
    · exact Except.noConfusion h
    split at h
    · exact Except.noConfusion h
    simp only [Except.ok.injEq, Prod.mk.injEq] at h
    obtain ⟨-, ho'⟩ := h
    push_neg at hterm
    exact ⟨o, List.mem_of_find?_eq_some hfind, hterm.1, hterm.2.1,
      hterm.2.2, by rw [← ho']⟩

/-- A state holding only the delivered order of `c6Order` and its seller. -/
def c1DeliveredState : AppState :=
  { orders := [c6Order], users := [{ id := 2 }] }

/-- Witness for C1 (amended) at a concrete input: a buyer's complete on a
delivered order exercises the complete-only-from-DELIVERED conjunct. -/
theorem C1_transition_guards_witness :
    ∃ st' o' o, completeOrder c1DeliveredState 10 1 "buyer" 100 =
        .ok (st', o') ∧
      o ∈ c1DeliveredState.orders ∧ o.status = .delivered ∧
      o'.status = .completed := by
  cases hrun : completeOrder c1DeliveredState 10 1 "buyer" 100 with
  | error e =>
    exfalso
    revert hrun
    norm_num [completeOrder, c1DeliveredState, c6Order, List.find?,
      releaseEscrowToPending, createLedgerEntry, getUserBalance,
      userEntries, updateSellerStats, setOrder, sellerLevelFor]
    exact fun hc => Except.noConfusion hc
  | ok p =>
    obtain ⟨st', o'⟩ := p
    obtain ⟨o, ho, hs, hc⟩ :=
      C1_transition_guards.2.2.1 c1DeliveredState 10 1 "buyer" 100 st' o'
        hrun
    exact ⟨st', o', o, rfl, ho, hs, hc⟩

/-! ## C3 — step-up confirmation -/

theorem requireSuperAdmin_error {admin : UserRec} {e : ErrorCode}
    (h : requireSuperAdmin admin = .error e) : e = .AUTHORIZATION_ERROR := by
  unfold requireSuperAdmin at h
  split at h
  · exact Except.noConfusion h
  · exact (Except.error.injEq _ _).mp h.symm

theorem verifyAdminPassword_error {admin : UserRec} {pw : String}
    {e : ErrorCode} (h : verifyAdminPassword admin pw = .error e) :
    e = .AUTHENTICATION_ERROR := by
  unfold verifyAdminPassword at h
  split at h
  · exact Except.noConfusion h
  · exact (Except.error.injEq _ _).mp h.symm

theorem auditLog_error {actions : List AdminAction} {a : AdminAction}
    {e : ErrorCode} (h : auditLog actions a = .error e) :
    e = .INTERNAL_ERROR := by
  unfold auditLog at h
  split at h
  · split at h
    · exact (Except.error.injEq _ _).mp h.symm
    · exact Except.noConfusion h
  · exact Except.noConfusion h

/-- State for the C3 counterexample: one user and one delivered $25
order. -/
def c3State : AppState :=
  { users := [{ id := 1 }], orders := [c6Order] }

/-- State for the C3 unfreeze counterexample: user 1 with $60 available
and $40 frozen. -/
def c3FrozenState : AppState :=
  { users := [{ id := 1 }],
    ledger := [⟨1, .admin_freeze_hold, -40, 60, 0, 40, none, some 99⟩] }

/-- C3 counterexample: `credit_wallet` applies a $5000 credit with no
password re-entry (it takes none) and no confirmation phrase;
`unfreeze_funds` releases $40 of frozen funds with no password either
(the service, route and schema carry none); and `force_refund_order`
refunds a $25 order with the password alone — the phrase is not demanded
for force-refund below the $1000 threshold, contradicting "regardless of
the order's amount". -/
theorem C3_counterexample :
    (creditWallet c3State c1Admin 1 5000 "manual adjust" none).isOk =
      true ∧
    (unfreezeFunds c3FrozenState c1Admin 1 40 "release hold" none).isOk =
      true ∧
    resultStatus (forceRefundOrder c3State c1Admin 10 "r" "pw" none 0) =
      some .refunded := by
  refine ⟨?_, ?_, ?_⟩
  · norm_num [creditWallet, requireSuperAdmin, auditLog, getUserBalance,
      userEntries, c3State, c1Admin, List.find?, Except.isOk, Except.toBool]
  · norm_num [unfreezeFunds, requireSuperAdmin, auditLog, getUserBalance,
      userEntries, c3FrozenState, c1Admin, List.find?, Except.isOk,
      Except.toBool]
  · norm_num [forceRefundOrder, requireSuperAdmin, verifyAdminPassword,
      auditLog, getUserBalance, userEntries, LARGE_AMOUNT_THRESHOLD,
      resultStatus, setOrder, c3State, c1Admin, c6Order, List.find?]
    decide

/-- C3 (amended): step-up confirmation is uneven.  `debit_wallet`,
`freeze_funds` and the force overrides demand password re-entry and fail
with `AUTHENTICATION_ERROR` on a wrong password, and demand their typed
phrases — compared case-insensitively via upper-casing, not as an exact
match — exactly when the amount is at/above the $1000 threshold;
`force_refund_order` and `force_complete_order` demand their phrases only
when the order amount is at/above $1000, not regardless of amount; and
`credit_wallet` and `unfreeze_funds` demand neither a password nor a
phrase at any amount. -/
theorem C3_step_up_confirmation :
    (∀ (st : AppState) (admin : UserRec) (uid : Nat) (amt : Rat)
       (reason : String) (key : Option String) (e : ErrorCode),
      creditWallet st admin uid amt reason key = .error e →
      e ≠ .AUTHENTICATION_ERROR ∧ e ≠ .VALIDATION_ERROR) ∧
    (∀ (st : AppState) (admin : UserRec) (uid : Nat) (amt : Rat)
       (reason pw : String) (phrase key : Option String),
      "super_admin" ∈ admin.roles → pw ≠ admin.password →
      debitWallet st admin uid amt reason pw phrase key =
        .error .AUTHENTICATION_ERROR) ∧
    (∀ (st : AppState) (admin : UserRec) (uid : Nat) (amt : Rat)
       (reason : String) (phrase key : Option String),
      "super_admin" ∈ admin.roles →
      amt ≥ LARGE_AMOUNT_THRESHOLD →
      (match phrase with
       | some p => p.toUpper = "CONFIRM DEBIT"
       | none => false) = false →
      debitWallet st admin uid amt reason admin.password phrase key =
        .error .VALIDATION_ERROR) ∧
    (∀ (st : AppState) (admin : UserRec) (oid : Nat) (reason : String)
       (phrase : Option String) (now : Int) (o : Order),
      "super_admin" ∈ admin.roles →
      st.orders.find? (fun x => x.id = oid) = some o →
      ¬ (o.status = .refunded ∨ o.status = .cancelled) →
      o.amount_usd ≥ LARGE_AMOUNT_THRESHOLD →
      (match phrase with
       | some p => p.toUpper = "CONFIRM REFUND"
       | none => false) = false →
      forceRefundOrder st admin oid reason admin.password phrase now =
        .error .VALIDATION_ERROR) ∧
    (∀ (st : AppState) (admin : UserRec) (oid : Nat) (reason : String)
       (phrase : Option String) (now : Int) (o : Order),
      "super_admin" ∈ admin.roles →
      st.orders.find? (fun x => x.id = oid) = some o →
      ¬ (o.status = .completed ∨ o.status = .refunded ∨
         o.status = .cancelled) →
      o.amount_usd ≥ LARGE_AMOUNT_THRESHOLD →
      (match phrase with
       | some p => p.toUpper = "CONFIRM COMPLETE"
       | none => false) = false →
      forceCompleteOrder st admin oid reason admin.password phrase now =
        .error .VALIDATION_ERROR) ∧
    (∀ (st : AppState) (admin : UserRec) (oid : Nat) (reason : String)
       (now : Int) (o : Order),
      st.orders.find? (fun x => x.id = oid) = some o →
      o.amount_usd < LARGE_AMOUNT_THRESHOLD →
      forceRefundOrder st admin oid reason admin.password none now ≠
        .error .VALIDATION_ERROR) ∧
    (∀ (st : AppState) (admin : UserRec) (uid : Nat) (amt : Rat)
       (reason pw : String) (phrase key : Option String),
      "super_admin" ∈ admin.roles → pw ≠ admin.password →
      freezeFunds st admin uid amt reason pw phrase key =
        .error .AUTHENTICATION_ERROR) ∧
    (∀ (st : AppState) (admin : UserRec) (uid : Nat) (amt : Rat)
       (reason : String) (phrase key : Option String),
      "super_admin" ∈ admin.roles →
      amt ≥ LARGE_AMOUNT_THRESHOLD →
      (match phrase with
       | some p => p.toUpper = "CONFIRM FREEZE"
       | none => false) = false →
      freezeFunds st admin uid amt reason admin.password phrase key =
        .error .VALIDATION_ERROR) ∧
    (∀ (st : AppState) (admin : UserRec) (uid : Nat) (amt : Rat)
       (reason : String) (key : Option String) (e : ErrorCode),
      unfreezeFunds st admin uid amt reason key = .error e →
      e ≠ .AUTHENTICATION_ERROR ∧ e ≠ .VALIDATION_ERROR) := by
  refine ⟨?_, ?_, ?_, ?_, ?_, ?_, ?_, ?_, ?_⟩
  · intro st admin uid amt reason key e h
    simp only [creditWallet] at h
    split at h
    · rename_i e' herr
      injection h with he
      subst he
      rw [requireSuperAdmin_error herr]
      exact ⟨by decide, by decide⟩
    split at h
    · rw [(Except.error.injEq _ _).mp h.symm]
      exact ⟨by decide, by decide⟩
    split at h
    · rw [(Except.error.injEq _ _).mp h.symm]
      exact ⟨by decide, by decide⟩
    split at h
    · rename_i e' herr
      injection h with he
      subst he
      rw [auditLog_error herr]
      exact ⟨by decide, by decide⟩
    · exact Except.noConfusion h
  · intro st admin uid amt reason pw phrase key hrole hpw
    simp only [debitWallet]
    rw [show requireSuperAdmin admin = .ok () from
      by unfold requireSuperAdmin; rw [if_pos hrole]]
    rw [show verifyAdminPassword admin pw = .error .AUTHENTICATION_ERROR
      from by unfold verifyAdminPassword; rw [if_neg hpw]]
  · intro st admin uid amt reason phrase key hrole hamt hphrase
    simp only [debitWallet]
    rw [show requireSuperAdmin admin = .ok () from
      by unfold requireSuperAdmin; rw [if_pos hrole]]
    rw [show verifyAdminPassword admin admin.password = .ok () from
      by unfold verifyAdminPassword; rw [if_pos rfl]]
    rw [if_pos ⟨hamt, hphrase⟩]
  · intro st admin oid reason phrase now o hrole hfind hstatus hamt hphrase
    simp only [forceRefundOrder]
    rw [show requireSuperAdmin admin = .ok () from
      by unfold requireSuperAdmin; rw [if_pos hrole]]
    rw [show verifyAdminPassword admin admin.password = .ok () from
      by unfold verifyAdminPassword; rw [if_pos rfl]]
    rw [hfind]
    simp only
    rw [if_neg hstatus, if_pos ⟨hamt, hphrase⟩]
  · intro st admin oid reason phrase now o hrole hfind hstatus hamt hphrase
    simp only [forceCompleteOrder]
    rw [show requireSuperAdmin admin = .ok () from
      by unfold requireSuperAdmin; rw [if_pos hrole]]
    rw [show verifyAdminPassword admin admin.password = .ok () from
      by unfold verifyAdminPassword; rw [if_pos rfl]]
    rw [hfind]
    simp only
    rw [if_neg hstatus, if_pos ⟨hamt, hphrase⟩]
  · intro st admin oid reason now o hfind hamt h
    simp only [forceRefundOrder] at h
    split at h
    · rename_i e' herr
      injection h with he
      subst he
      exact absurd (requireSuperAdmin_error herr) (by decide)
    split at h
    · rename_i e' herr
      injection h with he
      subst he
      exact absurd (verifyAdminPassword_error herr) (by decide)
    rw [hfind] at h
    simp only at h
    split at h
    · exact absurd ((Except.error.injEq _ _).mp h.symm) (by decide)
    split at h
    · rename_i hcond
      exact absurd hcond.1 (by push_neg; exact hamt)
    split at h
    · rename_i e' herr
      injection h with he
      subst he
      exact absurd (auditLog_error herr) (by decide)
    · exact Except.noConfusion h
  · intro st admin uid amt reason pw phrase key hrole hpw
    simp only [freezeFunds]
    rw [show requireSuperAdmin admin = .ok () from
      by unfold requireSuperAdmin; rw [if_pos hrole]]
    rw [show verifyAdminPassword admin pw = .error .AUTHENTICATION_ERROR
      from by unfold verifyAdminPassword; rw [if_neg hpw]]
  · intro st admin uid amt reason phrase key hrole hamt hphrase
    simp only [freezeFunds]
    rw [show requireSuperAdmin admin = .ok () from
      by unfold requireSuperAdmin; rw [if_pos hrole]]
    rw [show verifyAdminPassword admin admin.password = .ok () from
      by unfold verifyAdminPassword; rw [if_pos rfl]]
    rw [if_pos ⟨hamt, hphrase⟩]
  · intro st admin uid amt reason key e h
    simp only [unfreezeFunds] at h
    split at h
    · rename_i e' herr
      injection h with he
      subst he
      rw [requireSuperAdmin_error herr]
      exact ⟨by decide, by decide⟩
    split at h
    · rw [(Except.error.injEq _ _).mp h.symm]
      exact ⟨by decide, by decide⟩
    split at h
    · rw [(Except.error.injEq _ _).mp h.symm]
      exact ⟨by decide, by decide⟩
    split at h
    · rename_i e' herr
      injection h with he
      subst he
      rw [auditLog_error herr]
      exact ⟨by decide, by decide⟩
    · exact Except.noConfusion h

/-- Witness for C3 (amended) at concrete inputs: a wrong password on a $10
debit is rejected with `AUTHENTICATION_ERROR`; a $5000 debit with the right
password but no phrase is rejected with `VALIDATION_ERROR`; the same two
checks fire for `freeze_funds`. -/
theorem C3_step_up_confirmation_witness :
    debitWallet c3State c1Admin 1 10 "manual adjust" "wrong" none none =
      .error .AUTHENTICATION_ERROR ∧
    debitWallet c3State c1Admin 1 5000 "manual adjust" c1Admin.password
        none none = .error .VALIDATION_ERROR ∧
    freezeFunds c3State c1Admin 1 10 "manual adjust" "wrong" none none =
      .error .AUTHENTICATION_ERROR ∧
    freezeFunds c3State c1Admin 1 5000 "manual adjust" c1Admin.password
        none none = .error .VALIDATION_ERROR :=
  ⟨C3_step_up_confirmation.2.1 c3State c1Admin 1 10 "manual adjust"
      "wrong" none none (by decide) (by decide),
   C3_step_up_confirmation.2.2.1 c3State c1Admin 1 5000 "manual adjust"
      none none (by decide) (by decide) (by decide),
   C3_step_up_confirmation.2.2.2.2.2.2.1 c3State c1Admin 1 10
      "manual adjust" "wrong" none none (by decide) (by decide),
   C3_step_up_confirmation.2.2.2.2.2.2.2.1 c3State c1Admin 1 5000
      "manual adjust" none none (by decide) (by decide) (by decide)⟩

/-! ## C4 — idempotency-key reuse -/

theorem auditLog_ok {actions : List AdminAction} {a : AdminAction}
    {actions' : List AdminAction} (h : auditLog actions a = .ok actions') :
    actions' = actions ++ [a] := by
  unfold auditLog at h
  split at h
  · split at h
    · exact Except.noConfusion h
    · injection h with h'
      exact h'.symm
  · injection h with h'
    exact h'.symm

theorem auditLog_ok_not_dup {actions : List AdminAction} {a : AdminAction}
    {actions' : List AdminAction} {k : String}
    (h : auditLog actions a = .ok actions')
    (hk : a.idempotency_key = some k) :
    actions.any (fun x => decide (x.idempotency_key = some k)) = false := by
  unfold auditLog at h
  rw [hk] at h
  simp only at h
  split at h
  · exact Except.noConfusion h
  · rename_i hnot
    simpa using hnot

/-- The state produced by the first $100 admin credit of the C4
counterexample. -/
def c4State1 : AppState :=
  { users := [{ id := 1 }], orders := [c6Order],
    ledger := [{ user_id := 1, entry_type := .admin_credit,
                 amount_usd := 100, balance_available_after := 100,
                 balance_pending_after := 0, balance_frozen_after := 0,
                 admin_id := some 99 }],
    adminActions := [{ actor_id := 99, action_type := "wallet_credit",
                       target_id := some 1, reason := some "adjust",
                       idempotency_key := some "k" }] }

/-- C4 counterexample: reusing a credit idempotency key makes the second
call fail with `DUPLICATE_ENTRY`, not the `CONFLICT` the claim names (and
`debit_wallet` has no pre-check at all — its reuse dies on the audit
table's unique index as an internal error). -/
theorem C4_counterexample :
    creditWallet c3State c1Admin 1 100 "adjust" (some "k") =
      .ok (c4State1, 100) ∧
    creditWallet c4State1 c1Admin 1 100 "adjust" (some "k") =
      .error .DUPLICATE_ENTRY ∧
    ErrorCode.DUPLICATE_ENTRY ≠ ErrorCode.CONFLICT := by
  refine ⟨?_, ?_, by decide⟩
  · norm_num [creditWallet, requireSuperAdmin, auditLog, getUserBalance,
      userEntries, c3State, c4State1, c1Admin, List.find?]
  · norm_num [creditWallet, requireSuperAdmin, c4State1, c1Admin]

/-- C4 (amended): reusing an idempotency key never re-applies the financial
effect, but the failure is not `CONFLICT`: a successful `credit_wallet`
writes one ledger row, and a second credit with the same key fails the
explicit pre-check with `DUPLICATE_ENTRY`; a successful `debit_wallet`
writes one ledger row, and a second debit with the same key can never
succeed — it dies at latest on the audit table's unique idempotency-key
index (surfaced as an internal error); and neither operation ever returns
the error code `CONFLICT`. -/
theorem C4_idempotency_key_reuse :
    (∀ (st : AppState) (admin : UserRec) (uid : Nat) (amt : Rat)
       (reason : String) (k : String) (st1 : AppState) (r1 : Rat),
      creditWallet st admin uid amt reason (some k) = .ok (st1, r1) →
      (∃ e, st1.ledger = st.ledger ++ [e]) ∧
      ∀ (uid2 : Nat) (amt2 : Rat) (reason2 : String),
        creditWallet st1 admin uid2 amt2 reason2 (some k) =
          .error .DUPLICATE_ENTRY) ∧
    (∀ (st : AppState) (admin : UserRec) (uid : Nat) (amt : Rat)
       (reason pw : String) (phrase : Option String) (k : String)
       (st1 : AppState) (r1 : Rat),
      debitWallet st admin uid amt reason pw phrase (some k) =
        .ok (st1, r1) →
      (∃ e, st1.ledger = st.ledger ++ [e]) ∧
      ∀ (uid2 : Nat) (amt2 : Rat) (reason2 pw2 : String)
        (phrase2 : Option String) (st2 : AppState) (r2 : Rat),
        debitWallet st1 admin uid2 amt2 reason2 pw2 phrase2 (some k) ≠
          .ok (st2, r2)) ∧
    (∀ (st : AppState) (admin : UserRec) (uid : Nat) (amt : Rat)
       (reason : String) (key : Option String) (e : ErrorCode),
      creditWallet st admin uid amt reason key = .error e →
      e ≠ .CONFLICT) ∧
    (∀ (st : AppState) (admin : UserRec) (uid : Nat) (amt : Rat)
       (reason pw : String) (phrase key : Option String) (e : ErrorCode),
      debitWallet st admin uid amt reason pw phrase key = .error e →
      e ≠ .CONFLICT) := by
  refine ⟨?_, ?_, ?_, ?_⟩
  · intro st admin uid amt reason k st1 r1 h
    simp only [creditWallet] at h
    split at h
    · exact Except.noConfusion h
    rename_i u hrole
    split at h
    · exact Except.noConfusion h
    rename_i hdup
    split at h
    · exact Except.noConfusion h
    rename_i target hfind
    split at h
    · exact Except.noConfusion h
    rename_i actions' haudit
    simp only [Except.ok.injEq, Prod.mk.injEq] at h
    obtain ⟨hst, -⟩ := h
    have hacts := auditLog_ok haudit
    constructor
    · exact ⟨_, by rw [← hst]⟩
    · intro uid2 amt2 reason2
      simp only [creditWallet]
      rw [hrole]
      have : st1.adminActions.any
          (fun x => decide (x.idempotency_key = some k)) = true := by
        rw [← hst]
        simp only
        rw [hacts, List.any_append]
        simp
      rw [this]
      simp
  · intro st admin uid amt reason pw phrase k st1 r1 h
    simp only [debitWallet] at h
    split at h
    · exact Except.noConfusion h
    rename_i u hrole
    split at h
    · exact Except.noConfusion h
    rename_i u2 hpw
    split at h
    · exact Except.noConfusion h
    rename_i hphrase
    split at h
    · exact Except.noConfusion h
    rename_i target hfind
    split at h
    · exact Except.noConfusion h
    rename_i hbal
    split at h
    · exact Except.noConfusion h
    rename_i actions' haudit
    simp only [Except.ok.injEq, Prod.mk.injEq] at h
    obtain ⟨hst, -⟩ := h
    have hacts := auditLog_ok haudit
    constructor
    · exact ⟨_, by rw [← hst]⟩
    · intro uid2 amt2 reason2 pw2 phrase2 st2 r2 h2
      simp only [debitWallet] at h2
      split at h2
      · exact Except.noConfusion h2
      split at h2
      · exact Except.noConfusion h2
      split at h2
      · exact Except.noConfusion h2
      split at h2
      · exact Except.noConfusion h2
      split at h2
      · exact Except.noConfusion h2
      split at h2
      · exact Except.noConfusion h2
      rename_i actions2 haudit2
      have hnot := auditLog_ok_not_dup haudit2 rfl
      rw [← hst] at hnot
      simp only at hnot
      rw [hacts, List.any_append] at hnot
      simp at hnot
  · intro st admin uid amt reason key e h
    simp only [creditWallet] at h
    split at h
    · rename_i e' herr
      injection h with he
      subst he
      rw [requireSuperAdmin_error herr]
      decide
    split at h
    · injection h with he
      rw [← he]
      decide
    split at h
    · injection h with he
      rw [← he]
      decide
    split at h
    · rename_i e' herr
      injection h with he
      subst he
      rw [auditLog_error herr]
      decide
    · exact Except.noConfusion h
  · intro st admin uid amt reason pw phrase key e h
    simp only [debitWallet] at h
    split at h
    · rename_i e' herr
      injection h with he
      subst he
      rw [requireSuperAdmin_error herr]
      decide
    split at h
    · rename_i e' herr
      injection h with he
      subst he
      rw [verifyAdminPassword_error herr]
      decide
    split at h
    · injection h with he
      rw [← he]
      decide
    split at h
    · injection h with he
      rw [← he]
      decide
    split at h
    · injection h with he
      rw [← he]
      decide
    split at h
    · rename_i e' herr
      injection h with he
      subst he
      rw [auditLog_error herr]
      decide
    · exact Except.noConfusion h

/-- Witness for C4 (amended) at a concrete input: the first $100 credit of
the counterexample state, reused key "k". -/
theorem C4_idempotency_key_reuse_witness :
    (∃ e, c4State1.ledger = AppState.ledger c3State ++ [e]) ∧
    creditWallet c4State1 c1Admin 1 100 "adjust" (some "k") =
      .error .DUPLICATE_ENTRY := by
  have h := C4_idempotency_key_reuse.1 c3State c1Admin 1 100 "adjust" "k"
    c4State1 100
    (by norm_num [creditWallet, requireSuperAdmin, auditLog,
      getUserBalance, userEntries, c3State, c4State1, c1Admin, List.find?])
  exact ⟨h.1, h.2 1 100 "adjust"⟩

/-! ## C7 — fee resolution -/

/-- C7: the base fee percent resolves by most-specific match —
game+platform+level (tried only when a platform id is present, and
`create_order` passes none), then game+level, then the game default, then
the global 5% — the effective fee is `base × (1 − discount)` with the
discount keyed by seller tier (bronze 0%, silver 10%, gold 20%, platinum
35%, diamond 50%), and the stored amounts satisfy
`platform_fee = price × effective/100` and `earnings = price − fee`. -/
theorem C7_fee_resolution :
    (∀ (rules : List PlatformFeeRule) (g p : Nat) (lvl : String)
       (r : PlatformFeeRule),
      rules.find? (fun x => x.game_id = some g ∧ x.platform_id = some p ∧
        x.seller_level = some lvl) = some r →
      getPlatformFee rules (some g) (some p) lvl = r.fee_percent) ∧
    (∀ (rules : List PlatformFeeRule) (g p : Nat) (lvl : String)
       (r : PlatformFeeRule),
      rules.find? (fun x => x.game_id = some g ∧ x.platform_id = some p ∧
        x.seller_level = some lvl) = none →
      rules.find? (fun x => x.game_id = some g ∧ x.platform_id = none ∧
        x.seller_level = some lvl) = some r →
      getPlatformFee rules (some g) (some p) lvl = r.fee_percent) ∧
    (∀ (rules : List PlatformFeeRule) (g : Nat) (lvl : String)
       (r : PlatformFeeRule),
      rules.find? (fun x => x.game_id = some g ∧ x.platform_id = none ∧
        x.seller_level = some lvl) = some r →
      getPlatformFee rules (some g) none lvl = r.fee_percent) ∧
    (∀ (rules : List PlatformFeeRule) (g : Nat) (lvl : String)
       (r : PlatformFeeRule),
      rules.find? (fun x => x.game_id = some g ∧ x.platform_id = none ∧
        x.seller_level = some lvl) = none →
      rules.find? (fun x => x.game_id = some g ∧ x.platform_id = none ∧
        x.seller_level = none) = some r →
      getPlatformFee rules (some g) none lvl = r.fee_percent) ∧
    (∀ (rules : List PlatformFeeRule) (g : Nat) (lvl : String),
      rules.find? (fun x => x.game_id = some g ∧ x.platform_id = none ∧
        x.seller_level = some lvl) = none →
      rules.find? (fun x => x.game_id = some g ∧ x.platform_id = none ∧
        x.seller_level = none) = none →
      getPlatformFee rules (some g) none lvl = 5) ∧
    (∀ (rules : List PlatformFeeRule) (p : Option Nat) (lvl : String),
      getPlatformFee rules none p lvl = 5) ∧
    (∀ (st : AppState) (buyer : UserRec) (lid : Nat) (now : Int)
       (st' : AppState) (o' : Order) (listing : Listing)
       (seller : UserRec),
      st.listings.find? (fun l => l.id = lid) = some listing →
      st.users.find? (fun u => u.id = listing.seller_id) = some seller →
      createOrder st buyer lid now = .ok (st', o') →
      o'.base_fee_percent =
        getPlatformFee st.feeRules listing.game_id none
          seller.seller_level ∧
      o'.seller_discount_percent =
        getSellerFeeDiscount seller.seller_level * 100 ∧
      o'.effective_fee_percent = o'.base_fee_percent *
        (1 - getSellerFeeDiscount seller.seller_level) ∧
      o'.platform_fee_usd =
        listing.price_usd * (o'.effective_fee_percent / 100) ∧
      o'.seller_earnings_usd = listing.price_usd - o'.platform_fee_usd ∧
      o'.amount_usd = listing.price_usd) ∧
    (getSellerFeeDiscount "bronze" = 0 ∧
     getSellerFeeDiscount "silver" = 10/100 ∧
     getSellerFeeDiscount "gold" = 20/100 ∧
     getSellerFeeDiscount "platinum" = 35/100 ∧
     getSellerFeeDiscount "diamond" = 50/100) := by
  refine ⟨?_, ?_, ?_, ?_, ?_, ?_, ?_, ?_, ?_, ?_, ?_, ?_⟩
  · intro rules g p lvl r h1
    simp only [getPlatformFee]
    rw [h1]
  · intro rules g p lvl r h1 h2
    simp only [getPlatformFee, getPlatformFee.gameFallback]
    rw [h1, h2]
  · intro rules g lvl r h1
    simp only [getPlatformFee, getPlatformFee.gameFallback]
    rw [h1]
  · intro rules g lvl r h1 h2
    simp only [getPlatformFee, getPlatformFee.gameFallback]
    rw [h1, h2]
  · intro rules g lvl h1 h2
    simp only [getPlatformFee, getPlatformFee.gameFallback]
    rw [h1, h2]
  · intro rules p lvl
    cases p <;> simp only [getPlatformFee]
  · intro st buyer lid now st' o' listing seller hlisting hseller h
    simp only [createOrder] at h
    split at h
    · exact Except.noConfusion h
    rename_i listing' hfind
    rw [hlisting] at hfind
    injection hfind with hfind
    subst hfind
    split at h
    · exact Except.noConfusion h
    split at h
    · exact Except.noConfusion h
    split at h
    · exact Except.noConfusion h
    split at h
    · exact Except.noConfusion h
    rename_i seller' hfind2
    rw [hseller] at hfind2
    injection hfind2 with hfind2
    subst hfind2
    split at h
    · exact Except.noConfusion h
    simp only [Except.ok.injEq, Prod.mk.injEq] at h
    obtain ⟨-, ho'⟩ := h
    rw [← ho']
    exact ⟨rfl, rfl, rfl, rfl, rfl, rfl⟩
  · rfl
  · rfl
  · rfl
  · rfl
  · rfl

/-- Fixture for the C7 witness: a funded buyer, an approved $25 listing
with no game, and one unrelated game+platform+level fee rule. -/
def c7State : AppState :=
  { ledger := [⟨1, .deposit, 100, 100, 0, 0, none, none⟩],
    listings := [⟨50, 2, none, 25, .approved⟩],
    users := [{ id := 2 }],
    feeRules := [⟨some 7, some 3, some "gold", 8⟩] }

/-- Witness for C7 at concrete inputs: the specific-rule tier fires for a
matching (game, platform, level), and a concrete order's stored fee fields
satisfy the claimed equations. -/
theorem C7_fee_resolution_witness :
    getPlatformFee [⟨some 7, some 3, some "gold", 8⟩] (some 7) (some 3)
      "gold" = (8 : Rat) ∧
    ∃ st' o', createOrder c7State { id := 1 } 50 0 = .ok (st', o') ∧
      o'.base_fee_percent =
        getPlatformFee c7State.feeRules none none "bronze" ∧
      o'.seller_earnings_usd = 25 - o'.platform_fee_usd := by
  constructor
  · exact C7_fee_resolution.1 [⟨some 7, some 3, some "gold", 8⟩] 7 3
      "gold" ⟨some 7, some 3, some "gold", 8⟩ (by decide)
  · cases hrun : createOrder c7State { id := 1 } 50 0 with
    | error e =>
      exfalso
      revert hrun
      norm_num [createOrder, getUserBalance, userEntries, getPlatformFee,
        getSellerFeeDiscount, generateOrderNumber, holdEscrow,
        createLedgerEntry, c7State, List.find?]
      exact fun hc => Except.noConfusion hc
    | ok p =>
      obtain ⟨st', o'⟩ := p
      obtain ⟨h1, -, -, -, h5, -⟩ :=
        C7_fee_resolution.2.2.2.2.2.2.1 c7State { id := 1 } 50 0 st' o'
          ⟨50, 2, none, 25, .approved⟩ { id := 2 } (by decide) (by decide)
          hrun
      exact ⟨st', o', rfl, h1, h5⟩

/-! ## C8 — auto-complete sweep -/

/-- A DELIVERED $25 order delivered at hour 0. -/
def c8Order : Order :=
  { id := 10, order_number := 1000, listing_id := 50, buyer_id := 1,
    seller_id := 2, amount_usd := 25, platform_fee_usd := 5,
    seller_earnings_usd := 20, base_fee_percent := 5,
    seller_discount_percent := 0, effective_fee_percent := 5,
    status := .delivered, delivered_at := some 0 }

/-- State for the C8 counterexample: `sellerProtectionDays` configured to
20 (the dispute window stays at its default 24). -/
def c8State : AppState :=
  { orders := [c8Order], users := [{ id := 2 }],
    config := [("sellerProtectionDays", 20)] }

/-- C8 counterexample: the sweep is not "the same transition as a buyer
complete except `completed_by`": with `sellerProtectionDays` configured to
20 the sweep stamps `seller_pending_release_at = now + 20 days`, while a
buyer complete of the very same order stamps the hard-coded
`now + 10 days`. -/
theorem C8_counterexample :
    (autoCompleteOrdersJob c8State 30).orders.map
        (fun o => (o.status, o.completed_by, o.seller_pending_release_at)) =
      [(.completed, some "auto", some (30 + 24 * 20))] ∧
    (resultOrder (completeOrder c8State 10 1 "buyer" 30)).map
        (fun o => o.seller_pending_release_at) =
      some (some (30 + 24 * 10)) ∧
    ((30 : Int) + 24 * 20) ≠ 30 + 24 * 10 := by
  refine ⟨?_, ?_, by decide⟩
  · norm_num [autoCompleteOrdersJob, autoCompleteGo, autoCompleteSelected,
      getConfigInt, releaseEscrowToPending, createLedgerEntry,
      getUserBalance, userEntries, updateSellerStats, sellerLevelFor,
      c8State, c8Order, List.lookup]
    decide
  · norm_num [completeOrder, releaseEscrowToPending, createLedgerEntry,
      getUserBalance, userEntries, updateSellerStats, sellerLevelFor,
      setOrder, resultOrder, c8State, c8Order, List.find?]

theorem autoCompleteGo_get? (now pd cutoff : Int) :
    ∀ (orders : List Order) (ledger : List LedgerEntry)
      (users : List UserRec) (i : Nat) (o : Order),
      orders.get? i = some o →
      ∃ o', (autoCompleteGo now pd cutoff orders ledger users).1.get? i =
          some o' ∧
        (autoCompleteSelected cutoff o = false → o' = o) ∧
        (autoCompleteSelected cutoff o = true →
          o' = o ∨
          (o'.status = .completed ∧ o'.completed_by = some "auto" ∧
            o'.seller_pending_release_at = some (now + 24 * pd) ∧
            o'.id = o.id)) := by
  intro orders
  induction orders with
  | nil => intro ledger users i o h; simp at h
  | cons ohead rest ih =>
    intro ledger users i o h
    cases i with
    | zero =>
      simp only [List.get?] at h
      injection h with h
      subst h
      by_cases hsel : autoCompleteSelected cutoff ohead = true
      · cases hrel : releaseEscrowToPending ledger ohead.seller_id
            ohead.seller_earnings_usd ohead.id with
        | error e =>
          refine ⟨ohead, ?_, fun _ => rfl, fun _ => Or.inl rfl⟩
          simp [autoCompleteGo, hsel, hrel]
        | ok p =>
          obtain ⟨ledger', esnd⟩ := p
          refine ⟨{ ohead with
                    status := .completed
                    completed_at := some now
                    completed_by := some "auto"
                    seller_pending_release_at := some (now + 24 * pd) },
            ?_, fun hf => absurd hsel (by simp [hf]),
            fun _ => Or.inr ⟨rfl, rfl, rfl, rfl⟩⟩
          simp [autoCompleteGo, hsel, hrel]
      · rw [Bool.not_eq_true] at hsel
        refine ⟨ohead, ?_, fun _ => rfl,
          fun ht => absurd ht (by simp [hsel])⟩
        simp [autoCompleteGo, hsel]
    | succ n =>
      simp only [List.get?] at h
      by_cases hsel : autoCompleteSelected cutoff ohead = true
      · cases hrel : releaseEscrowToPending ledger ohead.seller_id
            ohead.seller_earnings_usd ohead.id with
        | error e =>
          obtain ⟨o', h1, h2, h3⟩ := ih ledger users n o h
          exact ⟨o', by simpa [autoCompleteGo, hsel, hrel] using h1, h2, h3⟩
        | ok p =>
          obtain ⟨ledger', esnd⟩ := p
          obtain ⟨o', h1, h2, h3⟩ := ih ledger'
            (updateSellerStats users ohead.seller_id ohead.amount_usd) n o h
          exact ⟨o', by simpa [autoCompleteGo, hsel, hrel] using h1, h2, h3⟩
      · rw [Bool.not_eq_true] at hsel
        obtain ⟨o', h1, h2, h3⟩ := ih ledger users n o h
        exact ⟨o', by simpa [autoCompleteGo, hsel] using h1, h2, h3⟩

/-- C8 (amended): the sweep touches exactly the DELIVERED orders with
`delivered_at < now − disputeWindowHours` (config, default 24); each one it
processes becomes COMPLETED with `completed_by = "auto"` and
`seller_pending_release_at = now + sellerProtectionDays days` read from
config (default 10) — unlike a buyer complete, whose ten days are
hard-coded — or is left untouched when its ledger release fails; orders
outside the selection are never changed, so a second sweep immediately
after is a no-op for every order the first run completed (it is no longer
DELIVERED). -/
theorem C8_auto_complete_sweep :
    (∀ (st : AppState) (now : Int) (i : Nat) (o : Order),
      st.orders.get? i = some o →
      ∃ o', (autoCompleteOrdersJob st now).orders.get? i = some o' ∧
        (¬ (o.status = .delivered ∧ ∃ d, o.delivered_at = some d ∧
            d < now - getConfigInt st "disputeWindowHours" 24) → o' = o) ∧
        ((o.status = .delivered ∧ ∃ d, o.delivered_at = some d ∧
            d < now - getConfigInt st "disputeWindowHours" 24) →
          o' = o ∨
          (o'.status = .completed ∧ o'.completed_by = some "auto" ∧
            o'.seller_pending_release_at =
              some (now + 24 * getConfigInt st "sellerProtectionDays" 10) ∧
            o'.id = o.id))) ∧
    (∀ (st : AppState) (now now' : Int) (i : Nat) (o : Order),
      (autoCompleteOrdersJob st now).orders.get? i = some o →
      o.status ≠ .delivered →
      (autoCompleteOrdersJob (autoCompleteOrdersJob st now) now').orders.get?
        i = some o) := by
  have hselect : ∀ (cutoff : Int) (o : Order),
      autoCompleteSelected cutoff o = true ↔
        (o.status = .delivered ∧ ∃ d, o.delivered_at = some d ∧
          d < cutoff) := by
    intro cutoff o
    unfold autoCompleteSelected
    cases hd : o.delivered_at with
    | none => simp [hd]
    | some d => simp [hd]
  constructor
  · intro st now i o h
    obtain ⟨o', h1, h2, h3⟩ := autoCompleteGo_get? now
      (getConfigInt st "sellerProtectionDays" 10)
      (now - getConfigInt st "disputeWindowHours" 24)
      st.orders st.ledger st.users i o h
    refine ⟨o', h1, fun hn => h2 ?_, fun hy => h3 ((hselect _ _).mpr hy)⟩
    rw [← Bool.not_eq_true, hselect]
    exact hn
  · intro st now now' i o h hs
    obtain ⟨o', h1, h2, -⟩ := autoCompleteGo_get? now'
      (getConfigInt (autoCompleteOrdersJob st now)
        "sellerProtectionDays" 10)
      (now' - getConfigInt (autoCompleteOrdersJob st now)
        "disputeWindowHours" 24)
      (autoCompleteOrdersJob st now).orders
      (autoCompleteOrdersJob st now).ledger
      (autoCompleteOrdersJob st now).users i o h
    have : o' = o := by
      apply h2
      rw [← Bool.not_eq_true, hselect]
      rintro ⟨hdel, -⟩
      exact hs hdel
    rw [this] at h1
    exact h1

/-- Witness for C8 (amended) at a concrete input: the sweep over `c8State`
at hour 30 completes its delivered order, and a second sweep right after
leaves the completed order untouched. -/
theorem C8_auto_complete_sweep_witness :
    ∃ o', (autoCompleteOrdersJob c8State 30).orders.get? 0 = some o' ∧
      (o' = c8Order ∨
        (o'.status = .completed ∧ o'.completed_by = some "auto" ∧
          o'.seller_pending_release_at =
            some (30 + 24 *
              getConfigInt c8State "sellerProtectionDays" 10) ∧
          o'.id = c8Order.id)) := by
  obtain ⟨o', h1, -, h3⟩ :=
    C8_auto_complete_sweep.1 c8State 30 0 c8Order (by decide)
  exact ⟨o', h1, h3 (by decide)⟩

end Traderz
